import Mathlib

/-!
# Anjay tutorial AT4: event loop and bootstrap/teardown of `main.c`

A shallow embedding of `examples/tutorial/AT4/src/main.c`.

The file consists of two C functions, `main_loop` and `main`, which do nothing
but call into the Anjay library, `poll(2)` and the tutorial's test object.
Every such call is an *external call*: its answer is supplied by a record of
functions over an abstract world state `W` (`Externals W`), and every call that
is made is appended, with its arguments, to a chronological trace.  Properties
of the program are properties of the returned status and of that trace, for
every choice of `W` and of the externals.

Pointers are natural numbers (`Option Ptr`, `none` being `NULL`), C `int`s are
`Int` (no arithmetic is done on them, they are only tested against zero).
-/

namespace AT4

/-! ## Data -/

/-- A non-null pointer value. -/
abbrev Ptr := Nat

/-- An entry of the socket list returned by `anjay_get_sockets`. -/
abbrev Sock := Nat

/-- The fields of `anjay_configuration_t` that `main` sets. -/
structure anjay_configuration_t where
  endpoint_name : String
  in_buffer_size : Nat
  out_buffer_size : Nat
deriving DecidableEq, Repr

/-- The fields of `anjay_security_instance_t` that `main` sets. -/
structure anjay_security_instance_t where
  ssid : Nat
  server_uri : String
  security_mode : Int
deriving DecidableEq, Repr

/-- The fields of `anjay_server_instance_t` that `main` sets. -/
structure anjay_server_instance_t where
  ssid : Nat
  lifetime : Int
  default_min_period : Int
  default_max_period : Int
  disable_timeout : Int
  binding : Int
deriving DecidableEq, Repr

/-- One `struct pollfd`. -/
structure pollfd where
  fd : Int
  events : Int
  revents : Int
deriving DecidableEq, Repr

/-- Values of the preprocessor and enum constants that `main.c` takes from headers
which are not part of the translated file (`anjay/anjay.h`, `anjay/security.h`,
`anjay/access_control.h`, `poll.h`).  They are parameters of the embedding. -/
structure Constants where
  ANJAY_IID_INVALID : Nat
  ANJAY_ACCESS_MASK_READ : Nat
  ANJAY_ACCESS_MASK_CREATE : Nat
  ANJAY_UDP_SECURITY_NOSEC : Int
  ANJAY_BINDING_U : Int
  POLLIN : Int
deriving DecidableEq, Repr

/-- What an `add_instance` call hands back: its `int` result and, when the callee
stored through its `inout_iid` argument, the value it stored. -/
structure AddInstanceResult where
  result : Int
  stored_iid : Option Nat
deriving DecidableEq, Repr

/-- What `poll` hands back: its `int` result and the `revents` field it left in
entry `i` of the array, for every index `i`. -/
structure PollResult where
  ret : Int
  revents : Nat → Int

/-- An external call made by `main.c`, with the arguments it was given. -/
inductive Call where
  | anjay_new (config : anjay_configuration_t)
  | avs_log (msg : String)
  | anjay_security_object_create
  | anjay_server_object_create
  | create_test_object
  | anjay_access_control_object_new (anjay : Ptr)
  | anjay_attr_storage_new (anjay : Ptr)
  | anjay_attr_storage_wrap_object (attr_storage : Ptr) (obj : Ptr)
  | anjay_register_object (anjay : Ptr) (wrapped : Option Ptr)
  | anjay_security_object_add_instance (obj : Ptr) (inst : anjay_security_instance_t)
      (iid : Nat)
  | anjay_server_object_add_instance (obj : Ptr) (inst : anjay_server_instance_t)
      (iid : Nat)
  | anjay_access_control_set_acl (obj : Ptr) (oid : Nat) (iid : Nat) (ssid : Nat)
      (mask : Nat)
  | anjay_get_sockets (anjay : Ptr)
  | avs_net_socket_get_system (sock : Sock)
  | anjay_sched_calculate_wait_time_ms (anjay : Ptr) (limit_ms : Int)
  | poll (fds : List pollfd) (nfds : Nat) (timeout : Int)
  | anjay_serve (anjay : Ptr) (sock : Sock)
  | anjay_sched_run (anjay : Ptr)
  | anjay_delete (anjay : Option Ptr)
  | anjay_security_object_delete (obj : Option Ptr)
  | anjay_server_object_delete (obj : Option Ptr)
  | delete_test_object (obj : Option Ptr)
  | anjay_access_control_object_delete (obj : Option Ptr)
  | anjay_attr_storage_delete (attr_storage : Option Ptr)
deriving DecidableEq, Repr

/-- The answers of the external functions, over a world state `W` that every call
may read and change. -/
structure Externals (W : Type) where
  anjay_new : anjay_configuration_t → W → Option Ptr × W
  avs_log : String → W → W
  anjay_security_object_create : W → Option Ptr × W
  anjay_server_object_create : W → Option Ptr × W
  create_test_object : W → Option Ptr × W
  anjay_access_control_object_new : Ptr → W → Option Ptr × W
  anjay_attr_storage_new : Ptr → W → Option Ptr × W
  anjay_attr_storage_wrap_object : Ptr → Ptr → W → Option Ptr × W
  anjay_register_object : Ptr → Option Ptr → W → Int × W
  anjay_security_object_add_instance :
    Ptr → anjay_security_instance_t → Nat → W → AddInstanceResult × W
  anjay_server_object_add_instance :
    Ptr → anjay_server_instance_t → Nat → W → AddInstanceResult × W
  anjay_access_control_set_acl : Ptr → Nat → Nat → Nat → Nat → W → Int × W
  anjay_get_sockets : Ptr → W → List Sock × W
  avs_net_socket_get_system : Sock → W → Int × W
  anjay_sched_calculate_wait_time_ms : Ptr → Int → W → Int × W
  poll : List pollfd → Nat → Int → W → PollResult × W
  anjay_serve : Ptr → Sock → W → Int × W
  anjay_sched_run : Ptr → W → Int × W
  anjay_delete : Option Ptr → W → W
  anjay_security_object_delete : Option Ptr → W → W
  anjay_server_object_delete : Option Ptr → W → W
  delete_test_object : Option Ptr → W → W
  anjay_access_control_object_delete : Option Ptr → W → W
  anjay_attr_storage_delete : Option Ptr → W → W

/-- The program state between two external calls: the world and the calls made so
far, oldest first. -/
structure St (W : Type) where
  world : W
  trace : List Call

/-- Record the call `c`, which left the world as `w`. -/
def St.emit {W : Type} (s : St W) (c : Call) (w : W) : St W :=
  { world := w, trace := s.trace ++ [c] }

/-! ## `main_loop` (main.c lines 12-56) -/

/-- Lines 21-28: the loop that fills `pollfds[i]` for each socket of the list. -/
def fill_pollfds {W : Type} (E : Externals W) (K : Constants) :
    List Sock → St W → List pollfd × St W
  | [], s => ([], s)
  | sock :: rest, s =>
    let r := E.avs_net_socket_get_system sock s.world
    let s1 := s.emit (Call.avs_net_socket_get_system sock) r.2
    let t := fill_pollfds E K rest s1
    ({ fd := r.1, events := K.POLLIN, revents := 0 } :: t.1, t.2)

/-- Lines 39-48: the loop over the socket list with the running index `socket_id`;
a socket whose `revents` is non-zero is served, and a non-zero result of
`anjay_serve` is logged. -/
def serve_loop {W : Type} (E : Externals W) (anjay : Ptr) (revents : Nat → Int) :
    List Sock → Nat → St W → St W
  | [], _, s => s
  | socket :: rest, socket_id, s =>
    let s1 :=
      if revents socket_id ≠ 0 then
        let r := E.anjay_serve anjay socket s.world
        let s2 := s.emit (Call.anjay_serve anjay socket) r.2
        if r.1 ≠ 0 then
          s2.emit (Call.avs_log "anjay_serve failed") (E.avs_log "anjay_serve failed" s2.world)
        else s2
      else s
    serve_loop E anjay revents rest (socket_id + 1) s1

/-- What lines 15-28 leave behind: the socket list, the filled `pollfds` array and
the state. -/
structure Gathered (W : Type) where
  sockets : List Sock
  pollfds : List pollfd
  state : St W

/-- Lines 15-28: obtain the sockets and fill `pollfds`. -/
def main_loop_gather {W : Type} (E : Externals W) (K : Constants) (anjay : Ptr)
    (s : St W) : Gathered W :=
  let g := E.anjay_get_sockets anjay s.world
  let sockets := g.1
  let s1 := s.emit (Call.anjay_get_sockets anjay) g.2
  let f := fill_pollfds E K sockets s1
  { sockets := sockets, pollfds := f.1, state := f.2 }

/-- Lines 30-38: compute `wait_ms` and call `poll`. -/
def main_loop_poll {W : Type} (E : Externals W) (anjay : Ptr) (g : Gathered W) :
    PollResult × St W :=
  let numsocks := g.sockets.length
  let max_wait_time_ms : Int := 1000
  let c := E.anjay_sched_calculate_wait_time_ms anjay max_wait_time_ms g.state.world
  let wait_ms := c.1
  let s2 := g.state.emit (Call.anjay_sched_calculate_wait_time_ms anjay max_wait_time_ms) c.2
  let p := E.poll g.pollfds numsocks wait_ms s2.world
  (p.1, s2.emit (Call.poll g.pollfds numsocks wait_ms) p.2)

/-- Lines 14-53: one pass through the body of `while (true)`. -/
def main_loop_body {W : Type} (E : Externals W) (K : Constants) (anjay : Ptr)
    (s : St W) : St W :=
  let g := main_loop_gather E K anjay s
  let p := main_loop_poll E anjay g
  let s4 := if p.1.ret > 0 then serve_loop E anjay p.1.revents g.sockets 0 p.2 else p.2
  let r := E.anjay_sched_run anjay s4.world
  s4.emit (Call.anjay_sched_run anjay) r.2

/-- The function `main_loop`, run for at most `fuel` passes of its loop.  The result
is `some v` when the function returned `v`, and `none` when it is still looping
after `fuel` passes.  The loop condition is the constant `true`; the `return 0`
after the loop is the other branch of that test. -/
def main_loop {W : Type} (E : Externals W) (K : Constants) (anjay : Ptr) :
    Nat → St W → Option Int × St W
  | 0, s => (none, s)
  | fuel + 1, s =>
    if true = true then main_loop E K anjay fuel (main_loop_body E K anjay s)
    else (some 0, s)

/-! ## `main` (main.c lines 58-168) -/

/-- Lines 59-63. -/
def CONFIG : anjay_configuration_t :=
  { endpoint_name := "urn:dev:os:anjay-tutorial"
    in_buffer_size := 4000
    out_buffer_size := 4000 }

/-- Lines 102-106. -/
def security_instance1 (K : Constants) : anjay_security_instance_t :=
  { ssid := 1
    server_uri := "coap://127.0.0.1:5683"
    security_mode := K.ANJAY_UDP_SECURITY_NOSEC }

/-- Lines 108-115. -/
def server_instance1 (K : Constants) : anjay_server_instance_t :=
  { ssid := 1
    lifetime := 86400
    default_min_period := -1
    default_max_period := -1
    disable_timeout := -1
    binding := K.ANJAY_BINDING_U }

/-- Lines 118-122. -/
def security_instance2 (K : Constants) : anjay_security_instance_t :=
  { ssid := 2
    server_uri := "coap://127.0.0.1:5693"
    security_mode := K.ANJAY_UDP_SECURITY_NOSEC }

/-- Lines 124-131. -/
def server_instance2 (K : Constants) : anjay_server_instance_t :=
  { ssid := 2
    lifetime := 86400
    default_min_period := -1
    default_max_period := -1
    disable_timeout := -1
    binding := K.ANJAY_BINDING_U }

/-- The five handles that `main` creates after the client context. -/
structure Objects where
  security_obj : Option Ptr
  server_obj : Option Ptr
  test_obj : Option Ptr
  access_control_obj : Option Ptr
  attr_storage : Option Ptr
deriving DecidableEq, Repr

/-- Lines 73-79: the five creation calls. -/
def create_objects {W : Type} (E : Externals W) (anjay : Ptr) (s : St W) :
    Objects × St W :=
  let r1 := E.anjay_security_object_create s.world
  let s1 := s.emit Call.anjay_security_object_create r1.2
  let r2 := E.anjay_server_object_create s1.world
  let s2 := s1.emit Call.anjay_server_object_create r2.2
  let r3 := E.create_test_object s2.world
  let s3 := s2.emit Call.create_test_object r3.2
  let r4 := E.anjay_access_control_object_new anjay s3.world
  let s4 := s3.emit (Call.anjay_access_control_object_new anjay) r4.2
  let r5 := E.anjay_attr_storage_new anjay s4.world
  let s5 := s4.emit (Call.anjay_attr_storage_new anjay) r5.2
  ({ security_obj := r1.1, server_obj := r2.1, test_obj := r3.1,
     access_control_obj := r4.1, attr_storage := r5.1 }, s5)

/-- One operand of the condition of lines 89-96:
`anjay_register_object(anjay, anjay_attr_storage_wrap_object(attr_storage, obj))`. -/
def register_wrapped {W : Type} (E : Externals W) (anjay attr_storage obj : Ptr)
    (s : St W) : Int × St W :=
  let wr := E.anjay_attr_storage_wrap_object attr_storage obj s.world
  let s1 := s.emit (Call.anjay_attr_storage_wrap_object attr_storage obj) wr.2
  let r := E.anjay_register_object anjay wr.1 s1.world
  (r.1, s1.emit (Call.anjay_register_object anjay wr.1) r.2)

/-- Lines 89-96: the four registrations joined by the short-circuit `||`.  The
Boolean is the value of the whole condition. -/
def register_objects {W : Type} (E : Externals W)
    (anjay attr_storage security_obj server_obj test_obj access_control_obj : Ptr)
    (s : St W) : Bool × St W :=
  let r1 := register_wrapped E anjay attr_storage security_obj s
  if r1.1 ≠ 0 then (true, r1.2)
  else
    let r2 := register_wrapped E anjay attr_storage server_obj r1.2
    if r2.1 ≠ 0 then (true, r2.2)
    else
      let r3 := register_wrapped E anjay attr_storage test_obj r2.2
      if r3.1 ≠ 0 then (true, r3.2)
      else
        let r4 := register_wrapped E anjay attr_storage access_control_obj r3.2
        if r4.1 ≠ 0 then (true, r4.2) else (false, r4.2)

/-- Lines 133-156: the four `add_instance` calls and the three `set_acl` calls.
None of their results is looked at.  `server_instance_iid1` and
`server_instance_iid2` start as `ANJAY_IID_INVALID` and hold afterwards whatever
the server object stored through the pointer, if it stored anything. -/
def populate {W : Type} (E : Externals W) (K : Constants)
    (security_obj server_obj access_control_obj : Ptr) (s : St W) : St W :=
  let server_instance_iid1 := K.ANJAY_IID_INVALID
  let a1 := E.anjay_security_object_add_instance security_obj (security_instance1 K)
    K.ANJAY_IID_INVALID s.world
  let s1 := s.emit (Call.anjay_security_object_add_instance security_obj
    (security_instance1 K) K.ANJAY_IID_INVALID) a1.2
  let b1 := E.anjay_server_object_add_instance server_obj (server_instance1 K)
    server_instance_iid1 s1.world
  let s2 := s1.emit (Call.anjay_server_object_add_instance server_obj
    (server_instance1 K) server_instance_iid1) b1.2
  let server_instance_iid1 := b1.1.stored_iid.getD server_instance_iid1
  let server_instance_iid2 := K.ANJAY_IID_INVALID
  let a2 := E.anjay_security_object_add_instance security_obj (security_instance2 K)
    K.ANJAY_IID_INVALID s2.world
  let s3 := s2.emit (Call.anjay_security_object_add_instance security_obj
    (security_instance2 K) K.ANJAY_IID_INVALID) a2.2
  let b2 := E.anjay_server_object_add_instance server_obj (server_instance2 K)
    server_instance_iid2 s3.world
  let s4 := s3.emit (Call.anjay_server_object_add_instance server_obj
    (server_instance2 K) server_instance_iid2) b2.2
  let server_instance_iid2 := b2.1.stored_iid.getD server_instance_iid2
  let c1 := E.anjay_access_control_set_acl access_control_obj 1234 K.ANJAY_IID_INVALID 1
    K.ANJAY_ACCESS_MASK_CREATE s4.world
  let s5 := s4.emit (Call.anjay_access_control_set_acl access_control_obj 1234
    K.ANJAY_IID_INVALID 1 K.ANJAY_ACCESS_MASK_CREATE) c1.2
  let c2 := E.anjay_access_control_set_acl access_control_obj 1 server_instance_iid1
    (server_instance1 K).ssid K.ANJAY_ACCESS_MASK_READ s5.world
  let s6 := s5.emit (Call.anjay_access_control_set_acl access_control_obj 1
    server_instance_iid1 (server_instance1 K).ssid K.ANJAY_ACCESS_MASK_READ) c2.2
  let c3 := E.anjay_access_control_set_acl access_control_obj 1 server_instance_iid2
    (server_instance2 K).ssid K.ANJAY_ACCESS_MASK_READ s6.world
  s6.emit (Call.anjay_access_control_set_acl access_control_obj 1
    server_instance_iid2 (server_instance2 K).ssid K.ANJAY_ACCESS_MASK_READ) c3.2

/-- Lines 160-166: the statements after the label `cleanup`. -/
def cleanup {W : Type} (E : Externals W) (anjay : Ptr) (o : Objects) (s : St W) :
    St W :=
  let s1 := s.emit (Call.anjay_delete (some anjay)) (E.anjay_delete (some anjay) s.world)
  let s2 := s1.emit (Call.anjay_security_object_delete o.security_obj)
    (E.anjay_security_object_delete o.security_obj s1.world)
  let s3 := s2.emit (Call.anjay_server_object_delete o.server_obj)
    (E.anjay_server_object_delete o.server_obj s2.world)
  let s4 := s3.emit (Call.delete_test_object o.test_obj)
    (E.delete_test_object o.test_obj s3.world)
  let s5 := s4.emit (Call.anjay_access_control_object_delete o.access_control_obj)
    (E.anjay_access_control_object_delete o.access_control_obj s4.world)
  s5.emit (Call.anjay_attr_storage_delete o.attr_storage)
    (E.anjay_attr_storage_delete o.attr_storage s5.world)

/-- Lines 72-167: `main` from the point where the client context `anjay` exists.
The result is `some status` when `main` returned `status` and `none` when
`main_loop` is still running after `fuel` passes. -/
def main_with_context {W : Type} (E : Externals W) (K : Constants) (fuel : Nat)
    (anjay : Ptr) (s : St W) : Option Int × St W :=
  let c := create_objects E anjay s
  let o := c.1
  match o.security_obj, o.server_obj, o.test_obj, o.access_control_obj, o.attr_storage with
  | some security_obj, some server_obj, some test_obj, some access_control_obj,
      some attr_storage =>
    let reg := register_objects E anjay attr_storage security_obj server_obj test_obj
      access_control_obj c.2
    if reg.1 then (some (-1), cleanup E anjay o reg.2)
    else
      let p := populate E K security_obj server_obj access_control_obj reg.2
      let l := main_loop E K anjay fuel p
      match l.1 with
      | none => (none, l.2)
      | some result => (some result, cleanup E anjay o l.2)
  | _, _, _, _, _ => (some (-1), cleanup E anjay o c.2)

/-- The function `main`, started in the world `w` with an empty trace. -/
def main {W : Type} (E : Externals W) (K : Constants) (fuel : Nat) (w : W) :
    Option Int × St W :=
  let s0 : St W := { world := w, trace := [] }
  let r := E.anjay_new CONFIG s0.world
  let s1 := s0.emit (Call.anjay_new CONFIG) r.2
  match r.1 with
  | none =>
    (some (-1), s1.emit (Call.avs_log "Could not create Anjay object")
      (E.avs_log "Could not create Anjay object" s1.world))
  | some anjay => main_with_context E K fuel anjay s1

/-! ## Observations on traces -/

/-- The six things that `main` creates and deletes. -/
inductive Handle where
  | client_context
  | security_object
  | server_object
  | test_object
  | access_control_object
  | attr_storage
deriving DecidableEq, Repr

/-- Which handle a delete call deletes; `none` for a call that is no delete call. -/
def Call.deleted : Call → Option Handle
  | Call.anjay_delete _ => some Handle.client_context
  | Call.anjay_security_object_delete _ => some Handle.security_object
  | Call.anjay_server_object_delete _ => some Handle.server_object
  | Call.delete_test_object _ => some Handle.test_object
  | Call.anjay_access_control_object_delete _ => some Handle.access_control_object
  | Call.anjay_attr_storage_delete _ => some Handle.attr_storage
  | _ => none

/-- The delete calls of a trace, by the kind of handle, in the order they were made. -/
def deleteOrder (tr : List Call) : List Handle := tr.filterMap Call.deleted

/-- The pointer given to a delete call of one of the four data-model objects
(security, server, test object, access control). -/
def Call.deletedObject : Call → Option (Option Ptr)
  | Call.anjay_security_object_delete p => some p
  | Call.anjay_server_object_delete p => some p
  | Call.delete_test_object p => some p
  | Call.anjay_access_control_object_delete p => some p
  | _ => none

/-- The pointers given to the delete calls of the four data-model objects, in the
order the calls were made. -/
def deletedObjects (tr : List Call) : List (Option Ptr) := tr.filterMap Call.deletedObject

/-- The object that a call to `anjay_attr_storage_wrap_object` wraps. -/
def Call.wrappedObject : Call → Option Ptr
  | Call.anjay_attr_storage_wrap_object _ obj => some obj
  | _ => none

/-- Whether the call is `anjay_register_object`. -/
def Call.isRegister : Call → Bool
  | Call.anjay_register_object _ _ => true
  | _ => false

/-- Walk a trace and list the objects given to `anjay_register_object`: a register
call registers the object of the wrap call made right before it (`pending`). -/
def registerScan : Option Ptr → List Call → List Ptr
  | _, [] => []
  | pending, c :: rest =>
    match c.wrappedObject with
    | some obj => registerScan (some obj) rest
    | none =>
      if c.isRegister then pending.toList ++ registerScan none rest
      else registerScan none rest

/-- The objects registered in a trace, in the order of the register calls. -/
def registerSeq (tr : List Call) : List Ptr := registerScan none tr

/-- Whether the call populates an instance or an ACL entry. -/
def Call.isPopulate : Call → Bool
  | Call.anjay_security_object_add_instance _ _ _ => true
  | Call.anjay_server_object_add_instance _ _ _ => true
  | Call.anjay_access_control_set_acl _ _ _ _ _ => true
  | _ => false

/-- Whether the call is `anjay_get_sockets`, the first call of every pass of the
event loop. -/
def Call.isGetSockets : Call → Bool
  | Call.anjay_get_sockets _ => true
  | _ => false

/-- Whether the call is `anjay_sched_run`. -/
def Call.isSchedRun : Call → Bool
  | Call.anjay_sched_run _ => true
  | _ => false

/-- The calls that `main_loop` makes. -/
def Call.inLoop : Call → Bool
  | Call.anjay_get_sockets _ => true
  | Call.avs_net_socket_get_system _ => true
  | Call.anjay_sched_calculate_wait_time_ms _ _ => true
  | Call.poll _ _ _ => true
  | Call.anjay_serve _ _ => true
  | Call.avs_log _ => true
  | Call.anjay_sched_run _ => true
  | _ => false

/-- The calls made between the `poll` and the `anjay_sched_run` of one pass. -/
def Call.inDispatch : Call → Bool
  | Call.anjay_serve _ _ => true
  | Call.avs_log _ => true
  | _ => false

/-- The socket that a call to `anjay_serve` serves. -/
def Call.served : Call → Option Sock
  | Call.anjay_serve _ sock => some sock
  | _ => none

/-- The sockets given to `anjay_serve` in a trace, in the order of the calls. -/
def servedSockets (tr : List Call) : List Sock := tr.filterMap Call.served

/-- The sockets of the list whose entry of the `pollfds` array, counted from
`first`, has a non-zero `revents`, in list order. -/
def readySockets (revents : Nat → Int) (sockets : List Sock) (first : Nat) : List Sock :=
  ((sockets.enumFrom first).filter fun p => decide (revents p.1 ≠ 0)).map Prod.snd

/-- The trace of one pass of the loop body: `anjay_get_sockets`, then the calls
`mid`, then `anjay_sched_run`. -/
def passTrace (anjay : Ptr) (mid : List Call) : List Call :=
  Call.anjay_get_sockets anjay :: (mid ++ [Call.anjay_sched_run anjay])

/-- The state after registering the objects of the list one after the other,
whatever the results. -/
def registration_state {W : Type} (E : Externals W) (anjay attr_storage : Ptr) :
    List Ptr → St W → St W
  | [], s => s
  | obj :: rest, s =>
    registration_state E anjay attr_storage rest (register_wrapped E anjay attr_storage obj s).2

/-- The result of registering object number `k` (from 0) of the list after the
objects before it were registered. -/
def registration_result {W : Type} (E : Externals W) (anjay attr_storage : Ptr)
    (objs : List Ptr) (k : Nat) (s : St W) : Int :=
  (register_wrapped E anjay attr_storage (objs.getD k 0)
    (registration_state E anjay attr_storage (objs.take k) s)).1

/-- The state of `main` right after `anjay_new` answered in the world `w`. -/
def after_new {W : Type} (E : Externals W) (w : W) : St W :=
  { world := (E.anjay_new CONFIG w).2, trace := [Call.anjay_new CONFIG] }

/-! ## The scheduler's wait time, from the specification -/

/-- Modelled from the spec: the Scheduler, "an ordered queue of (due-time, task)
entries", seen through the current time and the due times of its tasks, in
milliseconds.  The scheduler of the Anjay library is not part of `main.c`. -/
structure Scheduler where
  now : Int
  due : List Int
deriving DecidableEq, Repr

/-- Modelled from the spec: the due time of the next task; `none` when no task is
scheduled ("behave as if the next due time is infinite"). -/
def Scheduler.next_due : List Int → Option Int
  | [] => none
  | t :: ts =>
    match Scheduler.next_due ts with
    | none => some t
    | some m => some (min t m)

/-- Modelled from the spec: milliseconds until the next due task, "clamp to zero if
a task is already overdue"; `none` when no task is scheduled. -/
def Scheduler.time_until_next_due_task_ms (sch : Scheduler) : Option Int :=
  (Scheduler.next_due sch.due).map fun t => max 0 (t - sch.now)

/-- Modelled from the spec: section 4.3,
`wait_ms = min(time_until_next_due_task_ms, max_idle_ms)`, the bound collapsing to
`max_idle_ms` when no task is scheduled.  It stands for
`anjay_sched_calculate_wait_time_ms`, which is not part of `main.c`. -/
def Scheduler.compute_wait (sch : Scheduler) (max_idle_ms : Int) : Int :=
  match sch.time_until_next_due_task_ms with
  | none => max_idle_ms
  | some t => min t max_idle_ms

/-! ## The access-control table, from the specification -/

/-- Modelled from the spec: the Access Control Table, a "per (object-id,
instance-id) mapping from a remote-identity token (SSID) to a permission
bitmask"; a triple without an entry has the mask 0.  The table of the Anjay
library is not part of `main.c`. -/
def AclTable := Nat → Nat → Nat → Nat

/-- Modelled from the spec: the table without any entry. -/
def AclTable.empty : AclTable := fun _ _ _ => 0

/-- Modelled from the spec: "supports set/get", the get. -/
def AclTable.get_acl (t : AclTable) (oid iid ssid : Nat) : Nat := t oid iid ssid

/-- Modelled from the spec: "supports set/get", the set: the entry of the triple
becomes `mask`, every other entry stays. -/
def AclTable.set_acl (t : AclTable) (oid iid ssid mask : Nat) : AclTable :=
  fun o i s => if o = oid ∧ i = iid ∧ s = ssid then mask else t o i s

/-- The table after the `anjay_access_control_set_acl` calls of a trace, applied in
order, each of them taken as successful. -/
def replay_acl : List Call → AclTable → AclTable
  | [], t => t
  | Call.anjay_access_control_set_acl _ oid iid ssid mask :: rest, t =>
    replay_acl rest (t.set_acl oid iid ssid mask)
  | _ :: rest, t => replay_acl rest t

/-- The `anjay_access_control_set_acl` calls of a trace. -/
def setAclCalls (tr : List Call) : List Call :=
  tr.filter fun c =>
    match c with
    | Call.anjay_access_control_set_acl _ _ _ _ _ => true
    | _ => false

/-! ## Concrete runs -/

/-- The values of the constants in the Anjay headers and in `poll.h` on Linux. -/
def anjayConstants : Constants :=
  { ANJAY_IID_INVALID := 65535
    ANJAY_ACCESS_MASK_READ := 1
    ANJAY_ACCESS_MASK_CREATE := 16
    ANJAY_UDP_SECURITY_NOSEC := 3
    ANJAY_BINDING_U := 1
    POLLIN := 1 }

/-- Externals without a state for which everything succeeds: the context is 100,
the objects are 1, 2, 3, 4, the attribute storage is 5, wrapping `obj` gives
`obj + 10`, the security object assigns the instance ids 3 and 4, the server
object 7 and 8, there are three sockets 11, 12, 13, the scheduler asks for 250 ms
and `poll` reports all three sockets readable. -/
def happyExt : Externals Unit :=
  { anjay_new := fun _ w => (some 100, w)
    avs_log := fun _ w => w
    anjay_security_object_create := fun w => (some 1, w)
    anjay_server_object_create := fun w => (some 2, w)
    create_test_object := fun w => (some 3, w)
    anjay_access_control_object_new := fun _ w => (some 4, w)
    anjay_attr_storage_new := fun _ w => (some 5, w)
    anjay_attr_storage_wrap_object := fun _ obj w => (some (obj + 10), w)
    anjay_register_object := fun _ _ w => (0, w)
    anjay_security_object_add_instance := fun _ inst _ w =>
      ({ result := 0, stored_iid := some (inst.ssid + 2) }, w)
    anjay_server_object_add_instance := fun _ inst _ w =>
      ({ result := 0, stored_iid := some (inst.ssid + 6) }, w)
    anjay_access_control_set_acl := fun _ _ _ _ _ w => (0, w)
    anjay_get_sockets := fun _ w => ([11, 12, 13], w)
    avs_net_socket_get_system := fun sock w => (Int.ofNat sock, w)
    anjay_sched_calculate_wait_time_ms := fun _ _ w => (250, w)
    poll := fun _ _ _ w => ({ ret := 3, revents := fun _ => 1 }, w)
    anjay_serve := fun _ _ w => (0, w)
    anjay_sched_run := fun _ w => (0, w)
    anjay_delete := fun _ w => w
    anjay_security_object_delete := fun _ w => w
    anjay_server_object_delete := fun _ w => w
    delete_test_object := fun _ w => w
    anjay_access_control_object_delete := fun _ w => w
    anjay_attr_storage_delete := fun _ w => w }

/-- As `happyExt`, but the test object cannot be created. -/
def noTestObjectExt : Externals Unit :=
  { happyExt with create_test_object := fun w => (none, w) }

/-- As `happyExt`, but registering the wrapped access-control object (14) fails. -/
def lastRegistrationFailsExt : Externals Unit :=
  { happyExt with
    anjay_register_object := fun _ wrapped w => (if wrapped = some 14 then -1 else 0, w) }

/-- As `happyExt`, but registering the wrapped server object (12) fails. -/
def secondRegistrationFailsExt : Externals Unit :=
  { happyExt with
    anjay_register_object := fun _ wrapped w => (if wrapped = some 12 then -1 else 0, w) }

/-- As `happyExt`, but serving the second socket (12) fails. -/
def secondServeFailsExt : Externals Unit :=
  { happyExt with anjay_serve := fun _ sock w => (if sock = 12 then -1 else 0, w) }

/-- As `happyExt`, but both `add_instance` calls on the server object fail and store
nothing through `inout_iid`. -/
def serverAddFailsExt : Externals Unit :=
  { happyExt with
    anjay_server_object_add_instance := fun _ _ _ w =>
      ({ result := -1, stored_iid := none }, w) }

/-- As `happyExt`, but both `add_instance` calls on the server object fail with -1
after having stored the instance id 9 through `inout_iid`. -/
def serverAddFailsAfterStoringExt : Externals Unit :=
  { happyExt with
    anjay_server_object_add_instance := fun _ _ _ w =>
      ({ result := -1, stored_iid := some 9 }, w) }

/-- As `happyExt`, but there is no socket and `poll` fails with -1. -/
def noSocketsExt : Externals Unit :=
  { happyExt with
    anjay_get_sockets := fun _ w => ([], w)
    poll := fun _ _ _ w => ({ ret := -1, revents := fun _ => 1 }, w) }

/-- As `happyExt`, but `poll` times out: it returns 0 and leaves every `revents` 0. -/
def timeoutExt : Externals Unit :=
  { happyExt with poll := fun _ _ _ w => ({ ret := 0, revents := fun _ => 0 }, w) }

/-- Externals over a scheduler as world: as `happyExt`, with
`anjay_sched_calculate_wait_time_ms` computed by the scheduler model. -/
def schedExt : Externals Scheduler :=
  { anjay_new := fun _ w => (some 100, w)
    avs_log := fun _ w => w
    anjay_security_object_create := fun w => (some 1, w)
    anjay_server_object_create := fun w => (some 2, w)
    create_test_object := fun w => (some 3, w)
    anjay_access_control_object_new := fun _ w => (some 4, w)
    anjay_attr_storage_new := fun _ w => (some 5, w)
    anjay_attr_storage_wrap_object := fun _ obj w => (some (obj + 10), w)
    anjay_register_object := fun _ _ w => (0, w)
    anjay_security_object_add_instance := fun _ inst _ w =>
      ({ result := 0, stored_iid := some (inst.ssid + 2) }, w)
    anjay_server_object_add_instance := fun _ inst _ w =>
      ({ result := 0, stored_iid := some (inst.ssid + 6) }, w)
    anjay_access_control_set_acl := fun _ _ _ _ _ w => (0, w)
    anjay_get_sockets := fun _ w => ([11], w)
    avs_net_socket_get_system := fun sock w => (Int.ofNat sock, w)
    anjay_sched_calculate_wait_time_ms := fun _ limit_ms w => (w.compute_wait limit_ms, w)
    poll := fun _ _ _ w => ({ ret := 0, revents := fun _ => 0 }, w)
    anjay_serve := fun _ _ w => (0, w)
    anjay_sched_run := fun _ w => (0, w)
    anjay_delete := fun _ w => w
    anjay_security_object_delete := fun _ w => w
    anjay_server_object_delete := fun _ w => w
    delete_test_object := fun _ w => w
    anjay_access_control_object_delete := fun _ w => w
    anjay_attr_storage_delete := fun _ w => w }


/-- The wrap and register calls made while the objects of the list are registered
one after the other. -/
def registration_events {W : Type} (E : Externals W) (anjay attr_storage : Ptr) :
    List Ptr → St W → List Call
  | [], _ => []
  | obj :: rest, s =>
    Call.anjay_attr_storage_wrap_object attr_storage obj ::
      Call.anjay_register_object anjay
        (E.anjay_attr_storage_wrap_object attr_storage obj s.world).1 ::
      registration_events E anjay attr_storage rest
        (register_wrapped E anjay attr_storage obj s).2

/-- The five creation calls of `main`, in order. -/
def creation_calls (anjay : Ptr) : List Call :=
  [Call.anjay_security_object_create, Call.anjay_server_object_create,
   Call.create_test_object, Call.anjay_access_control_object_new anjay,
   Call.anjay_attr_storage_new anjay]

/-- The six delete calls of the teardown, in order. -/
def teardown_calls (anjay : Ptr) (o : Objects) : List Call :=
  [Call.anjay_delete (some anjay),
   Call.anjay_security_object_delete o.security_obj,
   Call.anjay_server_object_delete o.server_obj,
   Call.delete_test_object o.test_obj,
   Call.anjay_access_control_object_delete o.access_control_obj,
   Call.anjay_attr_storage_delete o.attr_storage]

/-- The seven calls that populate the instances and the ACL entries, in order, for
the instance ids `iid1` and `iid2` given to the last two. -/
def populate_calls (K : Constants) (security_obj server_obj access_control_obj : Ptr)
    (iid1 iid2 : Nat) : List Call :=
  [Call.anjay_security_object_add_instance security_obj (security_instance1 K)
     K.ANJAY_IID_INVALID,
   Call.anjay_server_object_add_instance server_obj (server_instance1 K)
     K.ANJAY_IID_INVALID,
   Call.anjay_security_object_add_instance security_obj (security_instance2 K)
     K.ANJAY_IID_INVALID,
   Call.anjay_server_object_add_instance server_obj (server_instance2 K)
     K.ANJAY_IID_INVALID,
   Call.anjay_access_control_set_acl access_control_obj 1234 K.ANJAY_IID_INVALID 1
     K.ANJAY_ACCESS_MASK_CREATE,
   Call.anjay_access_control_set_acl access_control_obj 1 iid1 1
     K.ANJAY_ACCESS_MASK_READ,
   Call.anjay_access_control_set_acl access_control_obj 1 iid2 2
     K.ANJAY_ACCESS_MASK_READ]

/-- The answer of the first `add_instance` call on the server object (ssid 1) when
the population starts in state `s`. -/
def server_add1 {W : Type} (E : Externals W) (K : Constants)
    (security_obj server_obj : Ptr) (s : St W) : AddInstanceResult :=
  (E.anjay_server_object_add_instance server_obj (server_instance1 K) K.ANJAY_IID_INVALID
    (E.anjay_security_object_add_instance security_obj (security_instance1 K)
      K.ANJAY_IID_INVALID s.world).2).1

/-- The answer of the second `add_instance` call on the server object (ssid 2) when
the population starts in state `s`. -/
def server_add2 {W : Type} (E : Externals W) (K : Constants)
    (security_obj server_obj : Ptr) (s : St W) : AddInstanceResult :=
  (E.anjay_server_object_add_instance server_obj (server_instance2 K) K.ANJAY_IID_INVALID
    (E.anjay_security_object_add_instance security_obj (security_instance2 K)
      K.ANJAY_IID_INVALID
      (E.anjay_server_object_add_instance server_obj (server_instance1 K)
        K.ANJAY_IID_INVALID
        (E.anjay_security_object_add_instance security_obj (security_instance1 K)
          K.ANJAY_IID_INVALID s.world).2).2).2).1


/-! ## Traces of the parts -/

@[simp]
theorem emit_trace {W : Type} (s : St W) (c : Call) (w : W) :
    (s.emit c w).trace = s.trace ++ [c] := rfl

@[simp]
theorem emit_world {W : Type} (s : St W) (c : Call) (w : W) :
    (s.emit c w).world = w := rfl

theorem fill_pollfds_trace {W : Type} (E : Externals W) (K : Constants)
    (socks : List Sock) (s : St W) :
    (fill_pollfds E K socks s).2.trace
      = s.trace ++ socks.map Call.avs_net_socket_get_system := by
  induction socks generalizing s with
  | nil => simp [fill_pollfds]
  | cons sock rest ih => simp [fill_pollfds, ih]

theorem main_loop_gather_trace {W : Type} (E : Externals W) (K : Constants)
    (anjay : Ptr) (s : St W) :
    (main_loop_gather E K anjay s).state.trace
      = s.trace ++ Call.anjay_get_sockets anjay ::
          (main_loop_gather E K anjay s).sockets.map Call.avs_net_socket_get_system := by
  simp [main_loop_gather, fill_pollfds_trace]

theorem main_loop_poll_trace {W : Type} (E : Externals W) (anjay : Ptr)
    (g : Gathered W) :
    (main_loop_poll E anjay g).2.trace
      = g.state.trace ++
        [Call.anjay_sched_calculate_wait_time_ms anjay 1000,
         Call.poll g.pollfds g.sockets.length
           (E.anjay_sched_calculate_wait_time_ms anjay 1000 g.state.world).1] := by
  simp [main_loop_poll]

theorem serve_loop_trace {W : Type} (E : Externals W) (anjay : Ptr)
    (revents : Nat → Int) (socks : List Sock) (first : Nat) (s : St W) :
    ∃ evs : List Call,
      (serve_loop E anjay revents socks first s).trace = s.trace ++ evs
      ∧ (∀ c ∈ evs, c.inDispatch = true)
      ∧ servedSockets evs = readySockets revents socks first := by
  induction socks generalizing first s with
  | nil => exact ⟨[], by simp [serve_loop, servedSockets, readySockets]⟩
  | cons sock rest ih =>
    by_cases hr : revents first = 0
    · obtain ⟨evs, h1, h2, h3⟩ := ih (first + 1) s
      refine ⟨evs, ?_, h2, ?_⟩
      · simp [serve_loop, hr, h1]
      · simp [readySockets, List.enumFrom, hr] at h3 ⊢
        exact h3
    · by_cases hs : (E.anjay_serve anjay sock s.world).1 = 0
      · obtain ⟨evs, h1, h2, h3⟩ := ih (first + 1)
          (s.emit (Call.anjay_serve anjay sock) (E.anjay_serve anjay sock s.world).2)
        refine ⟨Call.anjay_serve anjay sock :: evs, ?_, ?_, ?_⟩
        · simp [serve_loop, hr, hs, h1]
        · intro c hc
          rcases List.mem_cons.1 hc with rfl | hc
          · rfl
          · exact h2 c hc
        · simp [readySockets, List.enumFrom, hr, servedSockets, Call.served] at h3 ⊢
          exact h3
      · obtain ⟨evs, h1, h2, h3⟩ := ih (first + 1)
          ((s.emit (Call.anjay_serve anjay sock) (E.anjay_serve anjay sock s.world).2).emit
            (Call.avs_log "anjay_serve failed")
            (E.avs_log "anjay_serve failed" (E.anjay_serve anjay sock s.world).2))
        refine ⟨Call.anjay_serve anjay sock :: Call.avs_log "anjay_serve failed" :: evs,
          ?_, ?_, ?_⟩
        · simp [serve_loop, hr, hs, h1]
        · intro c hc
          rcases List.mem_cons.1 hc with rfl | hc
          · rfl
          · rcases List.mem_cons.1 hc with rfl | hc
            · rfl
            · exact h2 c hc
        · simp [readySockets, List.enumFrom, hr, servedSockets, Call.served] at h3 ⊢
          exact h3

theorem main_loop_body_trace {W : Type} (E : Externals W) (K : Constants)
    (anjay : Ptr) (s : St W) :
    ∃ mid : List Call,
      (main_loop_body E K anjay s).trace = s.trace ++ passTrace anjay mid
      ∧ (∀ c ∈ mid, c.inLoop = true ∧ c.isSchedRun = false ∧ c.isGetSockets = false) := by
  have hg := main_loop_gather_trace E K anjay s
  have hp := main_loop_poll_trace E anjay (main_loop_gather E K anjay s)
  by_cases hret : (main_loop_poll E anjay (main_loop_gather E K anjay s)).1.ret > 0
  · obtain ⟨evs, h1, h2, _⟩ := serve_loop_trace E anjay
      (main_loop_poll E anjay (main_loop_gather E K anjay s)).1.revents
      (main_loop_gather E K anjay s).sockets 0
      (main_loop_poll E anjay (main_loop_gather E K anjay s)).2
    refine ⟨(main_loop_gather E K anjay s).sockets.map Call.avs_net_socket_get_system ++
      [Call.anjay_sched_calculate_wait_time_ms anjay 1000,
       Call.poll (main_loop_gather E K anjay s).pollfds
         (main_loop_gather E K anjay s).sockets.length
         (E.anjay_sched_calculate_wait_time_ms anjay 1000
           (main_loop_gather E K anjay s).state.world).1] ++ evs, ?_, ?_⟩
    · simp [main_loop_body, hret, h1, hp, hg, passTrace]
    · intro c hc
      simp only [List.mem_append, List.mem_map, List.mem_cons, List.mem_singleton,
        List.not_mem_nil, or_false] at hc
      rcases hc with (⟨x, _, rfl⟩ | rfl | rfl) | hc
      · exact ⟨rfl, rfl, rfl⟩
      · exact ⟨rfl, rfl, rfl⟩
      · exact ⟨rfl, rfl, rfl⟩
      · have := h2 c hc
        cases c <;> simp_all [Call.inDispatch, Call.inLoop, Call.isSchedRun, Call.isGetSockets]
  · refine ⟨(main_loop_gather E K anjay s).sockets.map Call.avs_net_socket_get_system ++
      [Call.anjay_sched_calculate_wait_time_ms anjay 1000,
       Call.poll (main_loop_gather E K anjay s).pollfds
         (main_loop_gather E K anjay s).sockets.length
         (E.anjay_sched_calculate_wait_time_ms anjay 1000
           (main_loop_gather E K anjay s).state.world).1], ?_, ?_⟩
    · simp [main_loop_body, hret, hp, hg, passTrace]
    · intro c hc
      simp only [List.mem_append, List.mem_map, List.mem_cons, List.mem_singleton,
        List.not_mem_nil, or_false] at hc
      rcases hc with ⟨x, _, rfl⟩ | rfl | rfl
      · exact ⟨rfl, rfl, rfl⟩
      · exact ⟨rfl, rfl, rfl⟩
      · exact ⟨rfl, rfl, rfl⟩

theorem main_loop_result {W : Type} (E : Externals W) (K : Constants) (anjay : Ptr)
    (fuel : Nat) (s : St W) : (main_loop E K anjay fuel s).1 = none := by
  induction fuel generalizing s with
  | zero => rfl
  | succ n ih => simp [main_loop, ih]

theorem main_loop_succ {W : Type} (E : Externals W) (K : Constants) (anjay : Ptr)
    (fuel : Nat) (s : St W) :
    (main_loop E K anjay (fuel + 1) s).2
      = main_loop_body E K anjay (main_loop E K anjay fuel s).2 := by
  induction fuel generalizing s with
  | zero => simp [main_loop]
  | succ n ih =>
    have h := ih (main_loop_body E K anjay s)
    simp only [main_loop, if_true] at h ⊢
    exact h

theorem main_loop_blocks {W : Type} (E : Externals W) (K : Constants) (anjay : Ptr)
    (fuel : Nat) (s : St W) :
    ∃ blocks : List (List Call),
      blocks.length = fuel
      ∧ (main_loop E K anjay fuel s).2.trace
          = s.trace ++ (blocks.map (passTrace anjay)).flatten
      ∧ (∀ mid ∈ blocks, ∀ c ∈ mid,
          c.inLoop = true ∧ c.isSchedRun = false ∧ c.isGetSockets = false) := by
  induction fuel generalizing s with
  | zero => exact ⟨[], rfl, by simp [main_loop], by simp⟩
  | succ n ih =>
    obtain ⟨mid, hm1, hm2⟩ := main_loop_body_trace E K anjay s
    obtain ⟨blocks, hb1, hb2, hb3⟩ := ih (main_loop_body E K anjay s)
    refine ⟨mid :: blocks, by simp [hb1], ?_, ?_⟩
    · simp [main_loop, hb2, hm1]
    · intro m hmem
      rcases List.mem_cons.1 hmem with rfl | hmem
      · exact hm2
      · exact hb3 m hmem

theorem passTrace_inLoop (anjay : Ptr) (mid : List Call)
    (h : ∀ c ∈ mid, c.inLoop = true) : ∀ c ∈ passTrace anjay mid, c.inLoop = true := by
  intro c hc
  simp only [passTrace, List.mem_cons, List.mem_append, List.mem_singleton,
    List.not_mem_nil, or_false] at hc
  rcases hc with rfl | hc | rfl
  · rfl
  · exact h c hc
  · rfl

theorem main_loop_trace {W : Type} (E : Externals W) (K : Constants) (anjay : Ptr)
    (fuel : Nat) (s : St W) :
    ∃ evs : List Call,
      (main_loop E K anjay fuel s).2.trace = s.trace ++ evs
      ∧ (∀ c ∈ evs, c.inLoop = true)
      ∧ (0 < fuel → ∃ rest, evs = Call.anjay_get_sockets anjay :: rest) := by
  obtain ⟨blocks, hb1, hb2, hb3⟩ := main_loop_blocks E K anjay fuel s
  refine ⟨(blocks.map (passTrace anjay)).flatten, hb2, ?_, ?_⟩
  · intro c hc
    simp only [List.mem_flatten, List.mem_map] at hc
    obtain ⟨l, ⟨mid, hmid, rfl⟩, hc⟩ := hc
    exact passTrace_inLoop anjay mid (fun c hc => (hb3 mid hmid c hc).1) c hc
  · intro hpos
    cases blocks with
    | nil => simp at hb1; omega
    | cons b bs =>
      exact ⟨b ++ Call.anjay_sched_run anjay :: (bs.map (passTrace anjay)).flatten,
        by simp [passTrace]⟩


/-! ## Traces of the parts of `main` -/

theorem create_objects_trace {W : Type} (E : Externals W) (anjay : Ptr) (s : St W) :
    (create_objects E anjay s).2.trace = s.trace ++ creation_calls anjay := by
  simp [create_objects, creation_calls]

theorem cleanup_trace {W : Type} (E : Externals W) (anjay : Ptr) (o : Objects)
    (s : St W) : (cleanup E anjay o s).trace = s.trace ++ teardown_calls anjay o := by
  simp [cleanup, teardown_calls]

theorem populate_trace {W : Type} (E : Externals W) (K : Constants)
    (security_obj server_obj access_control_obj : Ptr) (s : St W) :
    (populate E K security_obj server_obj access_control_obj s).trace
      = s.trace ++ populate_calls K security_obj server_obj access_control_obj
          ((server_add1 E K security_obj server_obj s).stored_iid.getD K.ANJAY_IID_INVALID)
          ((server_add2 E K security_obj server_obj s).stored_iid.getD
            K.ANJAY_IID_INVALID) := by
  simp [populate, populate_calls, server_add1, server_add2, server_instance1,
    server_instance2]

theorem registration_state_trace {W : Type} (E : Externals W) (anjay attr_storage : Ptr)
    (objs : List Ptr) (s : St W) :
    (registration_state E anjay attr_storage objs s).trace
      = s.trace ++ registration_events E anjay attr_storage objs s := by
  induction objs generalizing s with
  | nil => simp [registration_state, registration_events]
  | cons obj rest ih =>
    simp [registration_state, registration_events, ih, register_wrapped]

theorem registration_events_neutral {W : Type} (E : Externals W)
    (anjay attr_storage : Ptr) (objs : List Ptr) (s : St W) :
    ∀ c ∈ registration_events E anjay attr_storage objs s,
      c.deleted = none ∧ c.isPopulate = false ∧ c.isGetSockets = false := by
  induction objs generalizing s with
  | nil => simp [registration_events]
  | cons obj rest ih =>
    intro c hc
    simp only [registration_events, List.mem_cons] at hc
    rcases hc with rfl | rfl | hc
    · exact ⟨rfl, rfl, rfl⟩
    · exact ⟨rfl, rfl, rfl⟩
    · exact ih _ c hc

theorem registerScan_pair (p : Option Ptr) (anjay attr_storage obj : Ptr)
    (wrapped : Option Ptr) (rest : List Call) :
    registerScan p (Call.anjay_attr_storage_wrap_object attr_storage obj ::
      Call.anjay_register_object anjay wrapped :: rest) = obj :: registerScan none rest := by
  simp [registerScan, Call.wrappedObject, Call.isRegister]

theorem registerScan_events {W : Type} (E : Externals W) (anjay attr_storage : Ptr)
    (obj : Ptr) (objs : List Ptr) (s : St W) (p : Option Ptr) (rest : List Call) :
    registerScan p (registration_events E anjay attr_storage (obj :: objs) s ++ rest)
      = obj :: objs ++ registerScan none rest := by
  induction objs generalizing obj s p with
  | nil =>
    simp [registration_events, registerScan, Call.wrappedObject, Call.isRegister]
  | cons o2 os ih =>
    have h := ih o2 (register_wrapped E anjay attr_storage obj s).2 none
    rw [registration_events, List.cons_append, List.cons_append, registerScan_pair, h]
    simp

theorem registerScan_neutral (xs ys : List Call)
    (h : ∀ c ∈ xs, c.wrappedObject = none ∧ c.isRegister = false) :
    registerScan none (xs ++ ys) = registerScan none ys := by
  induction xs with
  | nil => rfl
  | cons c cs ih =>
    have hc := h c (List.mem_cons_self _ _)
    have := ih (fun d hd => h d (List.mem_cons_of_mem _ hd))
    simp [registerScan, hc.1, hc.2, this]

theorem inLoop_neutral (c : Call) (h : c.inLoop = true) :
    c.deleted = none ∧ c.deletedObject = none ∧ c.isPopulate = false
      ∧ c.wrappedObject = none ∧ c.isRegister = false := by
  cases c <;> simp_all [Call.inLoop, Call.deleted, Call.deletedObject, Call.isPopulate,
    Call.wrappedObject, Call.isRegister]

theorem register_objects_fail {W : Type} (E : Externals W)
    (anjay attr_storage o1 o2 o3 o4 : Ptr) (s : St W) (k : Nat) (hk : k < 4)
    (hbefore : ∀ j, j < k →
      registration_result E anjay attr_storage [o1, o2, o3, o4] j s = 0)
    (hfail : registration_result E anjay attr_storage [o1, o2, o3, o4] k s ≠ 0) :
    register_objects E anjay attr_storage o1 o2 o3 o4 s
      = (true, registration_state E anjay attr_storage ([o1, o2, o3, o4].take (k + 1)) s) := by
  have h0 := hbefore 0
  have h1 := hbefore 1
  have h2 := hbefore 2
  interval_cases k <;>
    simp_all [register_objects, registration_result, registration_state]

theorem register_objects_ok {W : Type} (E : Externals W)
    (anjay attr_storage o1 o2 o3 o4 : Ptr) (s : St W)
    (hall : ∀ k, k < 4 →
      registration_result E anjay attr_storage [o1, o2, o3, o4] k s = 0) :
    register_objects E anjay attr_storage o1 o2 o3 o4 s
      = (false, registration_state E anjay attr_storage [o1, o2, o3, o4] s) := by
  have h0 := hall 0
  have h1 := hall 1
  have h2 := hall 2
  have h3 := hall 3
  simp_all [register_objects, registration_result, registration_state]

theorem main_of_new {W : Type} (E : Externals W) (K : Constants) (fuel : Nat) (w : W)
    (anjay : Ptr) (hnew : (E.anjay_new CONFIG w).1 = some anjay) :
    main E K fuel w = main_with_context E K fuel anjay (after_new E w) := by
  simp [main, hnew, after_new, St.emit]

theorem main_with_context_created {W : Type} (E : Externals W) (K : Constants)
    (fuel : Nat) (anjay : Ptr) (s : St W) (sec srv tst ac ats : Ptr)
    (hcreate : (create_objects E anjay s).1 =
      { security_obj := some sec, server_obj := some srv, test_obj := some tst,
        access_control_obj := some ac, attr_storage := some ats }) :
    main_with_context E K fuel anjay s =
      if (register_objects E anjay ats sec srv tst ac (create_objects E anjay s).2).1 then
        (some (-1), cleanup E anjay (create_objects E anjay s).1
          (register_objects E anjay ats sec srv tst ac (create_objects E anjay s).2).2)
      else
        (none, (main_loop E K anjay fuel
          (populate E K sec srv ac
            (register_objects E anjay ats sec srv tst ac
              (create_objects E anjay s).2).2)).2) := by
  simp only [main_with_context, hcreate]
  split
  · rfl
  · simp [main_loop_result]

theorem main_with_context_failed {W : Type} (E : Externals W) (K : Constants)
    (fuel : Nat) (anjay : Ptr) (s : St W)
    (hfail : (create_objects E anjay s).1.security_obj = none
      ∨ (create_objects E anjay s).1.server_obj = none
      ∨ (create_objects E anjay s).1.test_obj = none
      ∨ (create_objects E anjay s).1.access_control_obj = none
      ∨ (create_objects E anjay s).1.attr_storage = none) :
    main_with_context E K fuel anjay s =
      (some (-1), cleanup E anjay (create_objects E anjay s).1
        (create_objects E anjay s).2) := by
  unfold main_with_context
  simp only []
  split
  · rename_i h1 h2 h3 h4 h5
    simp [h1, h2, h3, h4, h5] at hfail
  · rfl


theorem registration_first_failure {W : Type} (E : Externals W)
    (anjay attr_storage : Ptr) (objs : List Ptr) (s : St W) :
    (∃ k, k < 4 ∧ (∀ j, j < k → registration_result E anjay attr_storage objs j s = 0)
        ∧ registration_result E anjay attr_storage objs k s ≠ 0)
    ∨ (∀ k, k < 4 → registration_result E anjay attr_storage objs k s = 0) := by
  by_cases h0 : registration_result E anjay attr_storage objs 0 s = 0
  · by_cases h1 : registration_result E anjay attr_storage objs 1 s = 0
    · by_cases h2 : registration_result E anjay attr_storage objs 2 s = 0
      · by_cases h3 : registration_result E anjay attr_storage objs 3 s = 0
        · right
          intro k hk
          interval_cases k <;> assumption
        · left
          refine ⟨3, by omega, ?_, h3⟩
          intro j hj
          interval_cases j <;> assumption
      · left
        refine ⟨2, by omega, ?_, h2⟩
        intro j hj
        interval_cases j <;> assumption
    · left
      refine ⟨1, by omega, ?_, h1⟩
      intro j hj
      have hj0 : j = 0 := by omega
      subst hj0
      exact h0
  · left
    exact ⟨0, by omega, fun j hj => absurd hj (by omega), h0⟩

theorem after_new_trace {W : Type} (E : Externals W) (w : W) :
    (after_new E w).trace = [Call.anjay_new CONFIG] := rfl

/-- The run of `main` when `anjay_new` returns `NULL`. -/
theorem main_no_context {W : Type} (E : Externals W) (K : Constants) (fuel : Nat) (w : W)
    (hnew : (E.anjay_new CONFIG w).1 = none) :
    (main E K fuel w).1 = some (-1)
    ∧ (main E K fuel w).2.trace
        = [Call.anjay_new CONFIG, Call.avs_log "Could not create Anjay object"] := by
  simp [main, hnew, St.emit]

/-- The run of `main` when one of the five creation calls returns `NULL`. -/
theorem main_creation_failed {W : Type} (E : Externals W) (K : Constants) (fuel : Nat)
    (w : W) (anjay : Ptr) (hnew : (E.anjay_new CONFIG w).1 = some anjay)
    (hfail : (create_objects E anjay (after_new E w)).1.security_obj = none
      ∨ (create_objects E anjay (after_new E w)).1.server_obj = none
      ∨ (create_objects E anjay (after_new E w)).1.test_obj = none
      ∨ (create_objects E anjay (after_new E w)).1.access_control_obj = none
      ∨ (create_objects E anjay (after_new E w)).1.attr_storage = none) :
    (main E K fuel w).1 = some (-1)
    ∧ (main E K fuel w).2.trace
        = Call.anjay_new CONFIG :: (creation_calls anjay
            ++ teardown_calls anjay (create_objects E anjay (after_new E w)).1) := by
  rw [main_of_new E K fuel w anjay hnew, main_with_context_failed E K fuel anjay _ hfail]
  simp [cleanup_trace, create_objects_trace, after_new_trace]

/-- The run of `main` when the creations succeed and registration number `k` is the
first to fail. -/
theorem main_registration_failed {W : Type} (E : Externals W) (K : Constants)
    (fuel : Nat) (w : W) (anjay sec srv tst ac ats : Ptr)
    (hnew : (E.anjay_new CONFIG w).1 = some anjay)
    (hcreate : (create_objects E anjay (after_new E w)).1 =
      { security_obj := some sec, server_obj := some srv, test_obj := some tst,
        access_control_obj := some ac, attr_storage := some ats })
    (k : Nat) (hk : k < 4)
    (hbefore : ∀ j, j < k → registration_result E anjay ats [sec, srv, tst, ac] j
      (create_objects E anjay (after_new E w)).2 = 0)
    (hfail : registration_result E anjay ats [sec, srv, tst, ac] k
      (create_objects E anjay (after_new E w)).2 ≠ 0) :
    (main E K fuel w).1 = some (-1)
    ∧ (main E K fuel w).2.trace
        = Call.anjay_new CONFIG :: (creation_calls anjay
            ++ registration_events E anjay ats ([sec, srv, tst, ac].take (k + 1))
                (create_objects E anjay (after_new E w)).2
            ++ teardown_calls anjay (create_objects E anjay (after_new E w)).1) := by
  rw [main_of_new E K fuel w anjay hnew,
    main_with_context_created E K fuel anjay _ sec srv tst ac ats hcreate,
    register_objects_fail E anjay ats sec srv tst ac _ k hk hbefore hfail]
  simp [cleanup_trace, create_objects_trace, after_new_trace, registration_state_trace]

/-- The run of `main` when the creations and the four registrations succeed. -/
theorem main_bootstrapped {W : Type} (E : Externals W) (K : Constants)
    (fuel : Nat) (w : W) (anjay sec srv tst ac ats : Ptr)
    (hnew : (E.anjay_new CONFIG w).1 = some anjay)
    (hcreate : (create_objects E anjay (after_new E w)).1 =
      { security_obj := some sec, server_obj := some srv, test_obj := some tst,
        access_control_obj := some ac, attr_storage := some ats })
    (hall : ∀ k, k < 4 → registration_result E anjay ats [sec, srv, tst, ac] k
      (create_objects E anjay (after_new E w)).2 = 0) :
    main E K fuel w
      = (none, (main_loop E K anjay fuel (populate E K sec srv ac
          (registration_state E anjay ats [sec, srv, tst, ac]
            (create_objects E anjay (after_new E w)).2))).2)
    ∧ ∃ evs : List Call,
        (main E K fuel w).2.trace
          = Call.anjay_new CONFIG :: (creation_calls anjay
              ++ registration_events E anjay ats [sec, srv, tst, ac]
                  (create_objects E anjay (after_new E w)).2
              ++ populate_calls K sec srv ac
                  ((server_add1 E K sec srv (registration_state E anjay ats [sec, srv, tst, ac]
                    (create_objects E anjay (after_new E w)).2)).stored_iid.getD
                      K.ANJAY_IID_INVALID)
                  ((server_add2 E K sec srv (registration_state E anjay ats [sec, srv, tst, ac]
                    (create_objects E anjay (after_new E w)).2)).stored_iid.getD
                      K.ANJAY_IID_INVALID)
              ++ evs)
        ∧ (∀ c ∈ evs, c.inLoop = true)
        ∧ (0 < fuel → ∃ rest, evs = Call.anjay_get_sockets anjay :: rest) := by
  have hmain : main E K fuel w
      = (none, (main_loop E K anjay fuel (populate E K sec srv ac
          (registration_state E anjay ats [sec, srv, tst, ac]
            (create_objects E anjay (after_new E w)).2))).2) := by
    rw [main_of_new E K fuel w anjay hnew,
      main_with_context_created E K fuel anjay _ sec srv tst ac ats hcreate,
      register_objects_ok E anjay ats sec srv tst ac _ hall]
    simp
  refine ⟨hmain, ?_⟩
  obtain ⟨evs, h1, h2, h3⟩ := main_loop_trace E K anjay fuel (populate E K sec srv ac
    (registration_state E anjay ats [sec, srv, tst, ac]
      (create_objects E anjay (after_new E w)).2))
  refine ⟨evs, ?_, h2, h3⟩
  rw [hmain]
  simp [h1, populate_trace, create_objects_trace, after_new_trace,
    registration_state_trace]


/-! ## Observations on the traces of the parts -/

theorem registration_events_deleted {W : Type} (E : Externals W)
    (anjay attr_storage : Ptr) (objs : List Ptr) (s : St W) :
    deleteOrder (registration_events E anjay attr_storage objs s) = []
    ∧ deletedObjects (registration_events E anjay attr_storage objs s) = [] := by
  induction objs generalizing s with
  | nil => simp [registration_events, deleteOrder, deletedObjects]
  | cons obj rest ih =>
    have h := ih (register_wrapped E anjay attr_storage obj s).2
    simp only [deleteOrder, deletedObjects] at h ⊢
    simp [registration_events, Call.deleted, Call.deletedObject, h.1, h.2]

theorem loop_events_deleted (evs : List Call) (h : ∀ c ∈ evs, c.inLoop = true) :
    deleteOrder evs = [] ∧ deletedObjects evs = [] := by
  simp only [deleteOrder, deletedObjects, List.filterMap_eq_nil_iff]
  exact ⟨fun c hc => (inLoop_neutral c (h c hc)).1,
    fun c hc => (inLoop_neutral c (h c hc)).2.1⟩

theorem loop_events_registerScan (evs : List Call) (h : ∀ c ∈ evs, c.inLoop = true) :
    registerScan none evs = [] := by
  have := registerScan_neutral evs []
    (fun c hc => ⟨(inLoop_neutral c (h c hc)).2.2.2.1, (inLoop_neutral c (h c hc)).2.2.2.2⟩)
  simpa [registerScan] using this

theorem deleteOrder_append (xs ys : List Call) :
    deleteOrder (xs ++ ys) = deleteOrder xs ++ deleteOrder ys := by
  simp [deleteOrder]

theorem deletedObjects_append (xs ys : List Call) :
    deletedObjects (xs ++ ys) = deletedObjects xs ++ deletedObjects ys := by
  simp [deletedObjects]

theorem deleteOrder_teardown (anjay : Ptr) (o : Objects) :
    deleteOrder (teardown_calls anjay o)
      = [Handle.client_context, Handle.security_object, Handle.server_object,
         Handle.test_object, Handle.access_control_object, Handle.attr_storage] := rfl

theorem deletedObjects_teardown (anjay : Ptr) (o : Objects) :
    deletedObjects (teardown_calls anjay o)
      = [o.security_obj, o.server_obj, o.test_obj, o.access_control_obj] := rfl

theorem registerScan_teardown (anjay : Ptr) (o : Objects) :
    registerScan none (teardown_calls anjay o) = [] := rfl

theorem registerScan_populate (K : Constants) (sec srv ac iid1 iid2 : Nat)
    (rest : List Call) :
    registerScan none (populate_calls K sec srv ac iid1 iid2 ++ rest)
      = registerScan none rest := rfl

theorem registerSeq_start (anjay : Ptr) (rest : List Call) :
    registerSeq (Call.anjay_new CONFIG :: (creation_calls anjay ++ rest))
      = registerScan none rest := rfl

theorem deleteOrder_new (xs : List Call) :
    deleteOrder (Call.anjay_new CONFIG :: xs) = deleteOrder xs := rfl

theorem deletedObjects_new (xs : List Call) :
    deletedObjects (Call.anjay_new CONFIG :: xs) = deletedObjects xs := rfl

theorem deleteOrder_creation (anjay : Ptr) : deleteOrder (creation_calls anjay) = [] := rfl

theorem deletedObjects_creation (anjay : Ptr) :
    deletedObjects (creation_calls anjay) = [] := rfl

theorem deleteOrder_populate (K : Constants) (sec srv ac iid1 iid2 : Nat) :
    deleteOrder (populate_calls K sec srv ac iid1 iid2) = [] := rfl

theorem deletedObjects_populate (K : Constants) (sec srv ac iid1 iid2 : Nat) :
    deletedObjects (populate_calls K sec srv ac iid1 iid2) = [] := rfl

/-- Every run of `main` follows one of four paths. -/
theorem main_paths {W : Type} (E : Externals W) (K : Constants) (fuel : Nat) (w : W) :
    ((main E K fuel w).1 = some (-1)
      ∧ (main E K fuel w).2.trace
          = [Call.anjay_new CONFIG, Call.avs_log "Could not create Anjay object"])
    ∨ (∃ anjay o,
        (main E K fuel w).1 = some (-1)
        ∧ (main E K fuel w).2.trace
            = Call.anjay_new CONFIG :: (creation_calls anjay ++ teardown_calls anjay o))
    ∨ (∃ anjay sec srv tst ac ats s k, k < 4
        ∧ (main E K fuel w).1 = some (-1)
        ∧ (main E K fuel w).2.trace
            = Call.anjay_new CONFIG :: (creation_calls anjay
                ++ registration_events E anjay ats ([sec, srv, tst, ac].take (k + 1)) s
                ++ teardown_calls anjay
                    { security_obj := some sec, server_obj := some srv,
                      test_obj := some tst, access_control_obj := some ac,
                      attr_storage := some ats }))
    ∨ (∃ anjay sec srv tst ac ats s iid1 iid2 evs,
        (main E K fuel w).1 = none
        ∧ (main E K fuel w).2.trace
            = Call.anjay_new CONFIG :: (creation_calls anjay
                ++ registration_events E anjay ats [sec, srv, tst, ac] s
                ++ populate_calls K sec srv ac iid1 iid2 ++ evs)
        ∧ (∀ c ∈ evs, c.inLoop = true)) := by
  cases hnew : (E.anjay_new CONFIG w).1 with
  | none => exact Or.inl (main_no_context E K fuel w hnew)
  | some anjay =>
    right
    by_cases hfail : (create_objects E anjay (after_new E w)).1.security_obj = none
      ∨ (create_objects E anjay (after_new E w)).1.server_obj = none
      ∨ (create_objects E anjay (after_new E w)).1.test_obj = none
      ∨ (create_objects E anjay (after_new E w)).1.access_control_obj = none
      ∨ (create_objects E anjay (after_new E w)).1.attr_storage = none
    · exact Or.inl ⟨anjay, _, main_creation_failed E K fuel w anjay hnew hfail⟩
    · right
      simp only [not_or] at hfail
      obtain ⟨h1, h2, h3, h4, h5⟩ := hfail
      obtain ⟨sec, hsec⟩ := Option.ne_none_iff_exists'.1 h1
      obtain ⟨srv, hsrv⟩ := Option.ne_none_iff_exists'.1 h2
      obtain ⟨tst, htst⟩ := Option.ne_none_iff_exists'.1 h3
      obtain ⟨ac, hac⟩ := Option.ne_none_iff_exists'.1 h4
      obtain ⟨ats, hats⟩ := Option.ne_none_iff_exists'.1 h5
      have hcreate : (create_objects E anjay (after_new E w)).1 =
          { security_obj := some sec, server_obj := some srv, test_obj := some tst,
            access_control_obj := some ac, attr_storage := some ats } := by
        cases hc : (create_objects E anjay (after_new E w)).1
        simp_all
      rcases registration_first_failure E anjay ats [sec, srv, tst, ac]
        (create_objects E anjay (after_new E w)).2 with ⟨k, hk, hb, hf⟩ | hall
      · left
        have h := main_registration_failed E K fuel w anjay sec srv tst ac ats hnew hcreate
          k hk hb hf
        rw [hcreate] at h
        exact ⟨anjay, sec, srv, tst, ac, ats, _, k, hk, h⟩
      · right
        obtain ⟨_, evs, h1, h2, _⟩ := main_bootstrapped E K fuel w anjay sec srv tst ac ats
          hnew hcreate hall
        rw [main_of_new E K fuel w anjay hnew,
          main_with_context_created E K fuel anjay _ sec srv tst ac ats hcreate,
          register_objects_ok E anjay ats sec srv tst ac _ hall] at *
        exact ⟨anjay, sec, srv, tst, ac, ats, _, _, _, evs, by simp, h1, h2⟩


/-! ## The claims about bootstrap and teardown -/

/-- C1: when the client context was created and at least one of the five creation
steps (security object, server object, test object, access-control object,
attribute storage) returned a null handle, `main` returns -1 and its calls are
exactly `anjay_new`, the five creation calls and the six delete calls, each delete
once and on the handle its creation returned (null for a failed one): no
registration, no add-instance, no set-ACL and no pass of the event loop. -/
theorem C1_creation_failure_unwinds {W : Type} (E : Externals W) (K : Constants)
    (fuel : Nat) (w : W) (anjay : Ptr)
    (hnew : (E.anjay_new CONFIG w).1 = some anjay)
    (hfail : (create_objects E anjay (after_new E w)).1.security_obj = none
      ∨ (create_objects E anjay (after_new E w)).1.server_obj = none
      ∨ (create_objects E anjay (after_new E w)).1.test_obj = none
      ∨ (create_objects E anjay (after_new E w)).1.access_control_obj = none
      ∨ (create_objects E anjay (after_new E w)).1.attr_storage = none) :
    (main E K fuel w).1 = some (-1)
    ∧ (main E K fuel w).2.trace
        = [Call.anjay_new CONFIG,
           Call.anjay_security_object_create,
           Call.anjay_server_object_create,
           Call.create_test_object,
           Call.anjay_access_control_object_new anjay,
           Call.anjay_attr_storage_new anjay,
           Call.anjay_delete (some anjay),
           Call.anjay_security_object_delete
             (create_objects E anjay (after_new E w)).1.security_obj,
           Call.anjay_server_object_delete
             (create_objects E anjay (after_new E w)).1.server_obj,
           Call.delete_test_object
             (create_objects E anjay (after_new E w)).1.test_obj,
           Call.anjay_access_control_object_delete
             (create_objects E anjay (after_new E w)).1.access_control_obj,
           Call.anjay_attr_storage_delete
             (create_objects E anjay (after_new E w)).1.attr_storage]
    ∧ registerSeq (main E K fuel w).2.trace = []
    ∧ (∀ c ∈ (main E K fuel w).2.trace,
        c.isRegister = false ∧ c.isPopulate = false ∧ c.isGetSockets = false)
    ∧ deleteOrder (main E K fuel w).2.trace
        = [Handle.client_context, Handle.security_object, Handle.server_object,
           Handle.test_object, Handle.access_control_object, Handle.attr_storage] := by
  obtain ⟨h1, h2⟩ := main_creation_failed E K fuel w anjay hnew hfail
  refine ⟨h1, ?_, ?_, ?_, ?_⟩
  · rw [h2]; rfl
  · rw [h2]; rfl
  · rw [h2]
    intro c hc
    simp only [creation_calls, teardown_calls, List.cons_append, List.nil_append,
      List.mem_cons, List.not_mem_nil, or_false] at hc
    rcases hc with rfl | rfl | rfl | rfl | rfl | rfl | rfl | rfl | rfl | rfl | rfl | rfl <;>
      exact ⟨rfl, rfl, rfl⟩
  · rw [h2]; rfl

/-- C1, at a run in which the test object cannot be created: the delete call of the
test object is made on the null handle. -/
theorem C1_creation_failure_unwinds_witness :
    (main noTestObjectExt anjayConstants 7 ()).1 = some (-1)
    ∧ (main noTestObjectExt anjayConstants 7 ()).2.trace
        = [Call.anjay_new CONFIG,
           Call.anjay_security_object_create,
           Call.anjay_server_object_create,
           Call.create_test_object,
           Call.anjay_access_control_object_new 100,
           Call.anjay_attr_storage_new 100,
           Call.anjay_delete (some 100),
           Call.anjay_security_object_delete (some 1),
           Call.anjay_server_object_delete (some 2),
           Call.delete_test_object none,
           Call.anjay_access_control_object_delete (some 4),
           Call.anjay_attr_storage_delete (some 5)] :=
  ⟨(C1_creation_failure_unwinds noTestObjectExt anjayConstants 7 () 100 rfl
      (Or.inr (Or.inr (Or.inl rfl)))).1,
   (C1_creation_failure_unwinds noTestObjectExt anjayConstants 7 () 100 rfl
      (Or.inr (Or.inr (Or.inl rfl)))).2.1⟩

/-- C2, as stated, fails: in the run in which the test object cannot be created the
delete calls are made in the order context, security, server, test object, access
control, attribute storage, which is not the order context, test object, server,
security, access control, attribute storage. -/
theorem C2_claimed_order_counterexample :
    deleteOrder (main noTestObjectExt anjayConstants 0 ()).2.trace
      = [Handle.client_context, Handle.security_object, Handle.server_object,
         Handle.test_object, Handle.access_control_object, Handle.attr_storage]
    ∧ deleteOrder (main noTestObjectExt anjayConstants 0 ()).2.trace
      ≠ [Handle.client_context, Handle.test_object, Handle.server_object,
         Handle.security_object, Handle.access_control_object, Handle.attr_storage] := by
  have h : deleteOrder (main noTestObjectExt anjayConstants 0 ()).2.trace
      = [Handle.client_context, Handle.security_object, Handle.server_object,
         Handle.test_object, Handle.access_control_object, Handle.attr_storage] := rfl
  refine ⟨h, ?_⟩
  rw [h]
  decide

/-- C2, amended: on every path of `main` that reaches teardown (some delete call is
made), the delete calls are the client context first, then the security object, the
server object, the test object, the access-control object and the attribute
storage, each once. -/
theorem C2_teardown_order {W : Type} (E : Externals W) (K : Constants) (fuel : Nat)
    (w : W) (hteardown : deleteOrder (main E K fuel w).2.trace ≠ []) :
    deleteOrder (main E K fuel w).2.trace
      = [Handle.client_context, Handle.security_object, Handle.server_object,
         Handle.test_object, Handle.access_control_object, Handle.attr_storage] := by
  rcases main_paths E K fuel w with ⟨_, h⟩ | ⟨anjay, o, _, h⟩
    | ⟨anjay, sec, srv, tst, ac, ats, s, k, _, _, h⟩
    | ⟨anjay, sec, srv, tst, ac, ats, s, iid1, iid2, evs, _, h, hevs⟩
  · rw [h] at hteardown
    exact absurd rfl hteardown
  · rw [h]; rfl
  · rw [h]
    simp only [deleteOrder_new, deleteOrder_append, deleteOrder_creation,
      (registration_events_deleted E anjay ats _ s).1, deleteOrder_teardown,
      List.nil_append]
  · rw [h] at hteardown
    exfalso
    apply hteardown
    simp only [deleteOrder_new, deleteOrder_append, deleteOrder_creation,
      (registration_events_deleted E anjay ats _ s).1, deleteOrder_populate,
      (loop_events_deleted evs hevs).1, List.nil_append]

/-- C2 amended, at the run in which the test object cannot be created. -/
theorem C2_teardown_order_witness :
    deleteOrder (main noTestObjectExt anjayConstants 3 ()).2.trace ≠ []
    ∧ deleteOrder (main noTestObjectExt anjayConstants 3 ()).2.trace
      = [Handle.client_context, Handle.security_object, Handle.server_object,
         Handle.test_object, Handle.access_control_object, Handle.attr_storage] :=
  ⟨by decide, C2_teardown_order noTestObjectExt anjayConstants 3 () (by decide)⟩


theorem registerSeq_registration_failed {W : Type} (E : Externals W)
    (anjay sec srv tst ac ats : Ptr) (s : St W) (k : Nat) (o : Objects) :
    registerSeq (Call.anjay_new CONFIG :: (creation_calls anjay
      ++ registration_events E anjay ats ([sec, srv, tst, ac].take (k + 1)) s
      ++ teardown_calls anjay o)) = [sec, srv, tst, ac].take (k + 1) := by
  rw [List.append_assoc, registerSeq_start, List.take_succ_cons, registerScan_events,
    registerScan_teardown, List.append_nil]

theorem registerSeq_bootstrapped {W : Type} (E : Externals W) (K : Constants)
    (anjay sec srv tst ac ats : Ptr) (s : St W) (iid1 iid2 : Nat) (evs : List Call)
    (hevs : ∀ c ∈ evs, c.inLoop = true) :
    registerSeq (Call.anjay_new CONFIG :: (creation_calls anjay
      ++ registration_events E anjay ats [sec, srv, tst, ac] s
      ++ populate_calls K sec srv ac iid1 iid2 ++ evs)) = [sec, srv, tst, ac] := by
  rw [List.append_assoc, List.append_assoc, registerSeq_start, registerScan_events,
    registerScan_populate, loop_events_registerScan evs hevs, List.append_nil]

/-- C3, as stated, fails: in the run in which the fourth registration fails, the
four objects are registered in the order 1, 2, 3, 4 and deleted in the order
1, 2, 3, 4, which is not the reverse; and in the run in which all four
registrations succeed the objects are registered and, after two passes of the
event loop, none has been deleted. -/
theorem C3_reverse_order_counterexample :
    registerSeq (main lastRegistrationFailsExt anjayConstants 0 ()).2.trace = [1, 2, 3, 4]
    ∧ deletedObjects (main lastRegistrationFailsExt anjayConstants 0 ()).2.trace
        = [some 1, some 2, some 3, some 4]
    ∧ deletedObjects (main lastRegistrationFailsExt anjayConstants 0 ()).2.trace
        ≠ (registerSeq (main lastRegistrationFailsExt anjayConstants 0 ()).2.trace).reverse.map
            some
    ∧ registerSeq (main happyExt anjayConstants 2 ()).2.trace = [1, 2, 3, 4]
    ∧ deletedObjects (main happyExt anjayConstants 2 ()).2.trace = [] := by
  have h1 : registerSeq (main lastRegistrationFailsExt anjayConstants 0 ()).2.trace
      = [1, 2, 3, 4] := by decide
  have h2 : deletedObjects (main lastRegistrationFailsExt anjayConstants 0 ()).2.trace
      = [some 1, some 2, some 3, some 4] := by decide
  refine ⟨h1, h2, ?_, by decide, by decide⟩
  rw [h1, h2]
  decide

/-- C3, amended: in every run of `main` in which `anjay_register_object` was called
for the four objects, either `main` returned -1 and the four objects were deleted
in the order in which they were registered (not in reverse), or `main` is in the
event loop and no delete call was made. -/
theorem C3_delete_order_is_register_order {W : Type} (E : Externals W) (K : Constants)
    (fuel : Nat) (w : W)
    (hreg : (registerSeq (main E K fuel w).2.trace).length = 4) :
    ((main E K fuel w).1 = some (-1)
      ∧ deletedObjects (main E K fuel w).2.trace
          = (registerSeq (main E K fuel w).2.trace).map some)
    ∨ ((main E K fuel w).1 = none ∧ deleteOrder (main E K fuel w).2.trace = []) := by
  rcases main_paths E K fuel w with ⟨_, h⟩ | ⟨anjay, o, _, h⟩
    | ⟨anjay, sec, srv, tst, ac, ats, s, k, hk, hres, h⟩
    | ⟨anjay, sec, srv, tst, ac, ats, s, iid1, iid2, evs, hres, h, hevs⟩
  · rw [h] at hreg
    exact absurd hreg (by decide)
  · rw [h, registerSeq_start, registerScan_teardown] at hreg
    exact absurd hreg (by decide)
  · left
    rw [h, registerSeq_registration_failed] at hreg ⊢
    have hk3 : k = 3 := by
      simp only [List.length_take, List.length_cons, List.length_nil] at hreg
      omega
    subst hk3
    refine ⟨hres, ?_⟩
    simp only [deletedObjects_new, deletedObjects_append, deletedObjects_creation,
      (registration_events_deleted E anjay ats _ s).2, deletedObjects_teardown,
      List.nil_append]
    rfl
  · right
    refine ⟨hres, ?_⟩
    rw [h]
    simp only [deleteOrder_new, deleteOrder_append, deleteOrder_creation,
      (registration_events_deleted E anjay ats _ s).1, deleteOrder_populate,
      (loop_events_deleted evs hevs).1, List.nil_append]

/-- C3 amended, at the run in which the fourth registration fails. -/
theorem C3_delete_order_is_register_order_witness :
    (registerSeq (main lastRegistrationFailsExt anjayConstants 1 ()).2.trace).length = 4
    ∧ (((main lastRegistrationFailsExt anjayConstants 1 ()).1 = some (-1)
        ∧ deletedObjects (main lastRegistrationFailsExt anjayConstants 1 ()).2.trace
            = (registerSeq (main lastRegistrationFailsExt anjayConstants 1 ()).2.trace).map
                some)
      ∨ ((main lastRegistrationFailsExt anjayConstants 1 ()).1 = none
        ∧ deleteOrder (main lastRegistrationFailsExt anjayConstants 1 ()).2.trace = [])) :=
  ⟨by decide,
   C3_delete_order_is_register_order lastRegistrationFailsExt anjayConstants 1 ()
     (by decide)⟩

/-- C4: when the context and the five creations succeed, the objects are registered
in the order security, server, test object, access control, each wrapped by the
attribute storage right before, up to the first registration that fails.  If
registration number `k` (from 0) is the first to fail, `main` returns -1, exactly
the first `k + 1` objects were given to `anjay_register_object`, no instance or
ACL entry is populated, the event loop is not entered and the six delete calls are
made.  If no registration fails, exactly the four objects are registered, in that
order, and `main` goes on into the event loop.  In every case the registered
objects are an initial segment of the fixed order. -/
theorem C4_registration_order {W : Type} (E : Externals W) (K : Constants)
    (fuel : Nat) (w : W) (anjay sec srv tst ac ats : Ptr)
    (hnew : (E.anjay_new CONFIG w).1 = some anjay)
    (hcreate : (create_objects E anjay (after_new E w)).1 =
      { security_obj := some sec, server_obj := some srv, test_obj := some tst,
        access_control_obj := some ac, attr_storage := some ats }) :
    (∀ k, k < 4 →
      (∀ j, j < k → registration_result E anjay ats [sec, srv, tst, ac] j
        (create_objects E anjay (after_new E w)).2 = 0) →
      registration_result E anjay ats [sec, srv, tst, ac] k
        (create_objects E anjay (after_new E w)).2 ≠ 0 →
      (main E K fuel w).1 = some (-1)
      ∧ (main E K fuel w).2.trace
          = Call.anjay_new CONFIG :: (creation_calls anjay
              ++ registration_events E anjay ats ([sec, srv, tst, ac].take (k + 1))
                  (create_objects E anjay (after_new E w)).2
              ++ teardown_calls anjay (create_objects E anjay (after_new E w)).1)
      ∧ registerSeq (main E K fuel w).2.trace = [sec, srv, tst, ac].take (k + 1)
      ∧ (∀ c ∈ (main E K fuel w).2.trace, c.isPopulate = false ∧ c.isGetSockets = false)
      ∧ deleteOrder (main E K fuel w).2.trace
          = [Handle.client_context, Handle.security_object, Handle.server_object,
             Handle.test_object, Handle.access_control_object, Handle.attr_storage])
    ∧ ((∀ k, k < 4 → registration_result E anjay ats [sec, srv, tst, ac] k
          (create_objects E anjay (after_new E w)).2 = 0) →
        (main E K fuel w).1 = none
        ∧ registerSeq (main E K fuel w).2.trace = [sec, srv, tst, ac])
    ∧ registerSeq (main E K fuel w).2.trace <+: [sec, srv, tst, ac] := by
  have hfailed : ∀ k, k < 4 →
      (∀ j, j < k → registration_result E anjay ats [sec, srv, tst, ac] j
        (create_objects E anjay (after_new E w)).2 = 0) →
      registration_result E anjay ats [sec, srv, tst, ac] k
        (create_objects E anjay (after_new E w)).2 ≠ 0 →
      (main E K fuel w).1 = some (-1)
      ∧ (main E K fuel w).2.trace
          = Call.anjay_new CONFIG :: (creation_calls anjay
              ++ registration_events E anjay ats ([sec, srv, tst, ac].take (k + 1))
                  (create_objects E anjay (after_new E w)).2
              ++ teardown_calls anjay (create_objects E anjay (after_new E w)).1)
      ∧ registerSeq (main E K fuel w).2.trace = [sec, srv, tst, ac].take (k + 1)
      ∧ (∀ c ∈ (main E K fuel w).2.trace, c.isPopulate = false ∧ c.isGetSockets = false)
      ∧ deleteOrder (main E K fuel w).2.trace
          = [Handle.client_context, Handle.security_object, Handle.server_object,
             Handle.test_object, Handle.access_control_object, Handle.attr_storage] := by
    intro k hk hb hf
    obtain ⟨h1, h2⟩ := main_registration_failed E K fuel w anjay sec srv tst ac ats hnew
      hcreate k hk hb hf
    refine ⟨h1, h2, ?_, ?_, ?_⟩
    · rw [h2, registerSeq_registration_failed]
    · rw [h2]
      intro c hc
      simp only [List.mem_cons, List.mem_append] at hc
      rcases hc with rfl | (hc | hc) | hc
      · exact ⟨rfl, rfl⟩
      · simp only [creation_calls, List.mem_cons, List.not_mem_nil, or_false] at hc
        rcases hc with rfl | rfl | rfl | rfl | rfl <;> exact ⟨rfl, rfl⟩
      · exact (registration_events_neutral E anjay ats _ _ c hc).2
      · simp only [teardown_calls, List.mem_cons, List.not_mem_nil, or_false] at hc
        rcases hc with rfl | rfl | rfl | rfl | rfl | rfl <;> exact ⟨rfl, rfl⟩
    · rw [h2]
      simp only [deleteOrder_new, deleteOrder_append, deleteOrder_creation,
        (registration_events_deleted E anjay ats _ _).1, deleteOrder_teardown,
        List.nil_append]
  have hok : (∀ k, k < 4 → registration_result E anjay ats [sec, srv, tst, ac] k
        (create_objects E anjay (after_new E w)).2 = 0) →
      (main E K fuel w).1 = none
      ∧ registerSeq (main E K fuel w).2.trace = [sec, srv, tst, ac] := by
    intro hall
    obtain ⟨h1, evs, h2, h3, _⟩ := main_bootstrapped E K fuel w anjay sec srv tst ac ats
      hnew hcreate hall
    refine ⟨by rw [h1], ?_⟩
    rw [h2, registerSeq_bootstrapped E K anjay sec srv tst ac ats _ _ _ evs h3]
  refine ⟨hfailed, hok, ?_⟩
  rcases registration_first_failure E anjay ats [sec, srv, tst, ac]
    (create_objects E anjay (after_new E w)).2 with ⟨k, hk, hb, hf⟩ | hall
  · rw [(hfailed k hk hb hf).2.2.1]
    exact List.take_prefix _ _
  · rw [(hok hall).2]

/-- C4, at the run in which the second registration (the server object) fails: the
security and the server object were given to `anjay_register_object`, nothing
else, and `main` returns -1. -/
theorem C4_registration_order_witness :
    (main secondRegistrationFailsExt anjayConstants 3 ()).1 = some (-1)
    ∧ registerSeq (main secondRegistrationFailsExt anjayConstants 3 ()).2.trace = [1, 2]
    ∧ deleteOrder (main secondRegistrationFailsExt anjayConstants 3 ()).2.trace
        = [Handle.client_context, Handle.security_object, Handle.server_object,
           Handle.test_object, Handle.access_control_object, Handle.attr_storage] :=
  have h := (C4_registration_order secondRegistrationFailsExt anjayConstants 3 () 100
    1 2 3 4 5 rfl rfl).1 1 (by decide)
    (fun j hj => by
      have hj0 : j = 0 := by omega
      subst hj0
      rfl)
    (by decide)
  ⟨h.1, h.2.2.1, h.2.2.2.2⟩


/-! ## The claims about the event loop -/

/-- C5: in a pass of `main_loop` in which `poll` returns a positive number, the
sockets given to `anjay_serve` are exactly the sockets of the gathered list whose
`revents` is non-zero, each once and in list order, for every socket list, every
`revents` and every result of `anjay_serve`; only `anjay_serve` calls and their
error logs happen between `poll` and `anjay_sched_run`, and after the pass the loop
goes on with the next pass. -/
theorem C5_ready_sockets_served_in_order {W : Type} (E : Externals W) (K : Constants)
    (anjay : Ptr) (s : St W)
    (hready : (main_loop_poll E anjay (main_loop_gather E K anjay s)).1.ret > 0) :
    (main_loop_gather E K anjay s).sockets = (E.anjay_get_sockets anjay s.world).1
    ∧ (∃ evs : List Call,
        (main_loop_body E K anjay s).trace
          = (main_loop_poll E anjay (main_loop_gather E K anjay s)).2.trace ++ evs
              ++ [Call.anjay_sched_run anjay]
        ∧ (∀ c ∈ evs, c.inDispatch = true)
        ∧ servedSockets evs
            = readySockets (main_loop_poll E anjay (main_loop_gather E K anjay s)).1.revents
                (main_loop_gather E K anjay s).sockets 0)
    ∧ (∀ fuel, main_loop E K anjay (fuel + 1) s
          = main_loop E K anjay fuel (main_loop_body E K anjay s)
        ∧ (main_loop E K anjay (fuel + 1) s).1 = none) := by
  refine ⟨rfl, ?_, fun fuel => ⟨by simp [main_loop], main_loop_result E K anjay _ s⟩⟩
  obtain ⟨evs, h1, h2, h3⟩ := serve_loop_trace E anjay
    (main_loop_poll E anjay (main_loop_gather E K anjay s)).1.revents
    (main_loop_gather E K anjay s).sockets 0
    (main_loop_poll E anjay (main_loop_gather E K anjay s)).2
  exact ⟨evs, by simp [main_loop_body, hready, h1], h2, h3⟩

/-- C5, at a pass with three ready sockets 11, 12, 13 of which the second fails to
be served: all three are served, in that order, and the failure is logged. -/
theorem C5_ready_sockets_served_in_order_witness :
    (main_loop_poll secondServeFailsExt 100
      (main_loop_gather secondServeFailsExt anjayConstants 100
        { world := (), trace := [] })).1.ret > 0
    ∧ (secondServeFailsExt.anjay_serve 100 12 ()).1 ≠ 0
    ∧ (∃ evs : List Call,
        (main_loop_body secondServeFailsExt anjayConstants 100
            { world := (), trace := [] }).trace
          = (main_loop_poll secondServeFailsExt 100
              (main_loop_gather secondServeFailsExt anjayConstants 100
                { world := (), trace := [] })).2.trace ++ evs
              ++ [Call.anjay_sched_run 100]
        ∧ (∀ c ∈ evs, c.inDispatch = true)
        ∧ servedSockets evs = [11, 12, 13])
    ∧ (main_loop_body secondServeFailsExt anjayConstants 100
          { world := (), trace := [] }).trace
        = [Call.anjay_get_sockets 100,
           Call.avs_net_socket_get_system 11,
           Call.avs_net_socket_get_system 12,
           Call.avs_net_socket_get_system 13,
           Call.anjay_sched_calculate_wait_time_ms 100 1000,
           Call.poll [{ fd := 11, events := 1, revents := 0 },
                      { fd := 12, events := 1, revents := 0 },
                      { fd := 13, events := 1, revents := 0 }] 3 250,
           Call.anjay_serve 100 11,
           Call.anjay_serve 100 12,
           Call.avs_log "anjay_serve failed",
           Call.anjay_serve 100 13,
           Call.anjay_sched_run 100] :=
  ⟨by decide, by decide,
   (C5_ready_sockets_served_in_order secondServeFailsExt anjayConstants 100
      { world := (), trace := [] } (by decide)).2.1,
   rfl⟩

/-- C6: the calls of `main_loop` are, pass after pass, `anjay_get_sockets`, then
calls among which there is neither `anjay_sched_run` nor `anjay_get_sockets` (the
`anjay_serve` calls of the pass are among them), then `anjay_sched_run`: every
pass runs the scheduler exactly once, as its last call, for every answer of
`poll`, of `anjay_serve` and every socket list. -/
theorem C6_sched_run_once_per_pass {W : Type} (E : Externals W) (K : Constants)
    (anjay : Ptr) (fuel : Nat) (s : St W) :
    ∃ blocks : List (List Call),
      blocks.length = fuel
      ∧ (main_loop E K anjay fuel s).2.trace
          = s.trace ++ (blocks.map fun mid =>
              Call.anjay_get_sockets anjay :: (mid ++ [Call.anjay_sched_run anjay])).flatten
      ∧ (∀ mid ∈ blocks, ∀ c ∈ mid, c.isSchedRun = false ∧ c.isGetSockets = false)
      ∧ (∀ mid ∈ blocks,
          (Call.anjay_get_sockets anjay :: (mid ++ [Call.anjay_sched_run anjay])).countP
            Call.isSchedRun = 1) := by
  obtain ⟨blocks, h1, h2, h3⟩ := main_loop_blocks E K anjay fuel s
  refine ⟨blocks, h1, h2, fun mid hmid c hc => (h3 mid hmid c hc).2, ?_⟩
  intro mid hmid
  have hnone : mid.countP Call.isSchedRun = 0 := by
    rw [List.countP_eq_zero]
    intro c hc
    simp [(h3 mid hmid c hc).2.1]
  simp [List.countP_cons, List.countP_append, hnone, Call.isSchedRun]

/-- A pass over an empty socket list in which `poll` fails: no socket is served and
the scheduler is run. -/
theorem main_loop_body_no_sockets :
    (main_loop_body noSocketsExt anjayConstants 100 { world := (), trace := [] }).trace
      = [Call.anjay_get_sockets 100,
         Call.anjay_sched_calculate_wait_time_ms 100 1000,
         Call.poll [] 0 250,
         Call.anjay_sched_run 100] := rfl

/-- A pass in which `poll` times out: no socket is served and the scheduler is run. -/
theorem main_loop_body_timeout :
    (main_loop_body timeoutExt anjayConstants 100 { world := (), trace := [] }).trace
      = [Call.anjay_get_sockets 100,
         Call.avs_net_socket_get_system 11,
         Call.avs_net_socket_get_system 12,
         Call.avs_net_socket_get_system 13,
         Call.anjay_sched_calculate_wait_time_ms 100 1000,
         Call.poll [{ fd := 11, events := 1, revents := 0 },
                    { fd := 12, events := 1, revents := 0 },
                    { fd := 13, events := 1, revents := 0 }] 3 250,
         Call.anjay_sched_run 100] := rfl

/-- C9: `main_loop` never returns: after any number of passes it is still looping,
and the next pass starts with a fresh `anjay_get_sockets`.  Therefore `main`
either is still running or has returned -1; it never returns 0. -/
theorem C9_loop_never_returns {W : Type} (E : Externals W) (K : Constants) :
    (∀ (anjay : Ptr) (n : Nat) (s : St W),
      (main_loop E K anjay n s).1 = none
      ∧ ∃ rest, (main_loop E K anjay (n + 1) s).2.trace
          = (main_loop E K anjay n s).2.trace ++ Call.anjay_get_sockets anjay :: rest)
    ∧ (∀ (fuel : Nat) (w : W),
      (main E K fuel w).1 = none ∨ (main E K fuel w).1 = some (-1)) := by
  constructor
  · intro anjay n s
    refine ⟨main_loop_result E K anjay n s, ?_⟩
    obtain ⟨mid, hm, _⟩ := main_loop_body_trace E K anjay (main_loop E K anjay n s).2
    exact ⟨mid ++ [Call.anjay_sched_run anjay], by rw [main_loop_succ, hm]; rfl⟩
  · intro fuel w
    rcases main_paths E K fuel w with ⟨h, _⟩ | ⟨_, _, h, _⟩
      | ⟨_, _, _, _, _, _, _, _, _, h, _⟩ | ⟨_, _, _, _, _, _, _, _, _, _, h, _⟩
    · exact Or.inr h
    · exact Or.inr h
    · exact Or.inr h
    · exact Or.inl h


/-! ## The wait bound -/

theorem next_due_nil_iff (l : List Int) : Scheduler.next_due l = none ↔ l = [] := by
  cases l with
  | nil => simp [Scheduler.next_due]
  | cons t ts =>
    cases h : Scheduler.next_due ts <;> simp [Scheduler.next_due, h]

theorem next_due_le (l : List Int) (t : Int) (ht : t ∈ l) :
    ∃ m, Scheduler.next_due l = some m ∧ m ≤ t := by
  induction l with
  | nil => cases ht
  | cons a as ih =>
    rcases List.mem_cons.1 ht with rfl | hmem
    · cases h : Scheduler.next_due as with
      | none => exact ⟨t, by simp [Scheduler.next_due, h], le_refl _⟩
      | some m => exact ⟨min t m, by simp [Scheduler.next_due, h], min_le_left _ _⟩
    · obtain ⟨m, hm, hle⟩ := ih hmem
      exact ⟨min a m, by simp [Scheduler.next_due, hm], le_trans (min_le_right _ _) hle⟩

theorem compute_wait_bounds (sch : Scheduler) (limit : Int) (hlimit : 0 ≤ limit) :
    0 ≤ sch.compute_wait limit ∧ sch.compute_wait limit ≤ limit := by
  unfold Scheduler.compute_wait Scheduler.time_until_next_due_task_ms
  cases Scheduler.next_due sch.due with
  | none => exact ⟨hlimit, le_refl _⟩
  | some m =>
    simp only [Option.map_some']
    exact ⟨le_min (le_max_left _ _) hlimit, min_le_right _ _⟩

theorem compute_wait_idle (sch : Scheduler) (limit : Int) (hidle : sch.due = []) :
    sch.compute_wait limit = limit := by
  simp [Scheduler.compute_wait, Scheduler.time_until_next_due_task_ms, hidle,
    Scheduler.next_due]

theorem compute_wait_overdue (sch : Scheduler) (limit : Int) (hlimit : 0 ≤ limit)
    (hover : ∃ t ∈ sch.due, t ≤ sch.now) : sch.compute_wait limit = 0 := by
  obtain ⟨t, ht, hle⟩ := hover
  obtain ⟨m, hm, hmt⟩ := next_due_le sch.due t ht
  simp only [Scheduler.compute_wait, Scheduler.time_until_next_due_task_ms, hm,
    Option.map_some']
  have h0 : max 0 (m - sch.now) = 0 := max_eq_left (by omega)
  rw [h0]
  exact min_eq_left hlimit

/-- C7: in every pass `main_loop` asks `anjay_sched_calculate_wait_time_ms` with the
bound 1000 and hands the answer unchanged to `poll` as its timeout.  When that
function computes the wait time of the specification over the scheduler `sched w`
of the world, the timeout is `min(time until the next due task, 1000)`: it lies in
`[0, 1000]`, is 1000 when no task is scheduled and 0 when the due time of some task
is not in the future. -/
theorem C7_wait_bound {W : Type} (E : Externals W) (K : Constants) (anjay : Ptr)
    (s : St W) (sched : W → Scheduler)
    (hmodel : ∀ a limit w, (E.anjay_sched_calculate_wait_time_ms a limit w).1
      = (sched w).compute_wait limit) :
    (main_loop_poll E anjay (main_loop_gather E K anjay s)).2.trace
      = (main_loop_gather E K anjay s).state.trace ++
        [Call.anjay_sched_calculate_wait_time_ms anjay 1000,
         Call.poll (main_loop_gather E K anjay s).pollfds
           (main_loop_gather E K anjay s).sockets.length
           (E.anjay_sched_calculate_wait_time_ms anjay 1000
             (main_loop_gather E K anjay s).state.world).1]
    ∧ (E.anjay_sched_calculate_wait_time_ms anjay 1000
        (main_loop_gather E K anjay s).state.world).1
        = (sched (main_loop_gather E K anjay s).state.world).compute_wait 1000
    ∧ 0 ≤ (sched (main_loop_gather E K anjay s).state.world).compute_wait 1000
    ∧ (sched (main_loop_gather E K anjay s).state.world).compute_wait 1000 ≤ 1000
    ∧ ((sched (main_loop_gather E K anjay s).state.world).due = [] →
        (sched (main_loop_gather E K anjay s).state.world).compute_wait 1000 = 1000)
    ∧ ((∃ t ∈ (sched (main_loop_gather E K anjay s).state.world).due,
          t ≤ (sched (main_loop_gather E K anjay s).state.world).now) →
        (sched (main_loop_gather E K anjay s).state.world).compute_wait 1000 = 0)
    ∧ (∀ t, (sched (main_loop_gather E K anjay s).state.world).time_until_next_due_task_ms
          = some t →
        (sched (main_loop_gather E K anjay s).state.world).compute_wait 1000
          = min t 1000) := by
  refine ⟨main_loop_poll_trace E anjay _, hmodel _ _ _,
    (compute_wait_bounds _ 1000 (by decide)).1, (compute_wait_bounds _ 1000 (by decide)).2,
    compute_wait_idle _ 1000, compute_wait_overdue _ 1000 (by decide), ?_⟩
  intro t ht
  simp [Scheduler.compute_wait, ht]

/-- C7, at a scheduler whose clock reads 5000 with tasks due at 5300 and at 4000: a
task is overdue and `poll` is called with the timeout 0; and for the clock at 5000
with one task due at 5300 the answer is 300, with one task due at 9000 it is 1000,
and without a task it is 1000. -/
theorem C7_wait_bound_witness :
    (main_loop_poll schedExt 100
        (main_loop_gather schedExt anjayConstants 100
          { world := { now := 5000, due := [5300, 4000] }, trace := [] })).2.trace
      = [Call.anjay_get_sockets 100,
         Call.avs_net_socket_get_system 11,
         Call.anjay_sched_calculate_wait_time_ms 100 1000,
         Call.poll [{ fd := 11, events := 1, revents := 0 }] 1 0]
    ∧ Scheduler.compute_wait { now := 5000, due := [5300] } 1000 = 300
    ∧ Scheduler.compute_wait { now := 5000, due := [9000] } 1000 = 1000
    ∧ Scheduler.compute_wait { now := 5000, due := [] } 1000 = 1000 :=
  ⟨((C7_wait_bound schedExt anjayConstants 100
      { world := { now := 5000, due := [5300, 4000] }, trace := [] } id
      (fun _ _ _ => rfl)).1).trans (by decide),
   by decide, by decide, by decide⟩


/-! ## Population of instances and ACL entries -/

theorem replay_acl_append (xs ys : List Call) (t : AclTable) :
    replay_acl (xs ++ ys) t = replay_acl ys (replay_acl xs t) := by
  induction xs generalizing t with
  | nil => rfl
  | cons c cs ih => cases c <;> simp [replay_acl, ih]

theorem replay_acl_neutral (xs : List Call) (h : ∀ c ∈ xs, c.isPopulate = false)
    (t : AclTable) : replay_acl xs t = t := by
  induction xs generalizing t with
  | nil => rfl
  | cons c cs ih =>
    have hc := h c (List.mem_cons_self _ _)
    have hcs := ih (fun d hd => h d (List.mem_cons_of_mem _ hd))
    cases c <;> simp_all [replay_acl, Call.isPopulate]

theorem setAclCalls_append (xs ys : List Call) :
    setAclCalls (xs ++ ys) = setAclCalls xs ++ setAclCalls ys := by
  simp [setAclCalls]

theorem setAclCalls_neutral (xs : List Call) (h : ∀ c ∈ xs, c.isPopulate = false) :
    setAclCalls xs = [] := by
  simp only [setAclCalls, List.filter_eq_nil_iff]
  intro c hc
  have := h c hc
  cases c <;> simp_all [Call.isPopulate]

theorem creation_calls_neutral (anjay : Ptr) :
    ∀ c ∈ Call.anjay_new CONFIG :: creation_calls anjay, c.isPopulate = false := by
  intro c hc
  simp only [creation_calls, List.mem_cons, List.not_mem_nil, or_false] at hc
  rcases hc with rfl | rfl | rfl | rfl | rfl | rfl <;> rfl

/-- The ACL observations of a run that reached the event loop depend on the seven
population calls only. -/
theorem acl_of_bootstrapped {W : Type} (E : Externals W) (K : Constants)
    (anjay sec srv tst ac ats : Ptr) (s : St W) (iid1 iid2 : Nat) (evs : List Call)
    (hevs : ∀ c ∈ evs, c.inLoop = true) :
    replay_acl (Call.anjay_new CONFIG :: (creation_calls anjay
        ++ registration_events E anjay ats [sec, srv, tst, ac] s
        ++ populate_calls K sec srv ac iid1 iid2 ++ evs)) AclTable.empty
      = replay_acl (populate_calls K sec srv ac iid1 iid2) AclTable.empty
    ∧ setAclCalls (Call.anjay_new CONFIG :: (creation_calls anjay
        ++ registration_events E anjay ats [sec, srv, tst, ac] s
        ++ populate_calls K sec srv ac iid1 iid2 ++ evs))
      = setAclCalls (populate_calls K sec srv ac iid1 iid2) := by
  have hshape : Call.anjay_new CONFIG :: (creation_calls anjay
        ++ registration_events E anjay ats [sec, srv, tst, ac] s
        ++ populate_calls K sec srv ac iid1 iid2 ++ evs)
      = (Call.anjay_new CONFIG :: creation_calls anjay)
        ++ (registration_events E anjay ats [sec, srv, tst, ac] s
        ++ (populate_calls K sec srv ac iid1 iid2 ++ evs)) := by
    simp
  have hloop : ∀ c ∈ evs, c.isPopulate = false :=
    fun c hc => (inLoop_neutral c (hevs c hc)).2.2.1
  have hreg : ∀ c ∈ registration_events E anjay ats [sec, srv, tst, ac] s,
      c.isPopulate = false :=
    fun c hc => (registration_events_neutral E anjay ats _ s c hc).2.1
  rw [hshape]
  constructor
  · rw [replay_acl_append, replay_acl_append, replay_acl_append,
      replay_acl_neutral _ (creation_calls_neutral anjay),
      replay_acl_neutral _ hreg, replay_acl_neutral evs hloop]
  · rw [setAclCalls_append, setAclCalls_append, setAclCalls_append,
      setAclCalls_neutral _ (creation_calls_neutral anjay),
      setAclCalls_neutral _ hreg, setAclCalls_neutral evs hloop]
    simp

/-- C8: after a bootstrap in which the context, the creations and the registrations
succeed and the server object assigns the instance ids `iid1` (for ssid 1) and
`iid2` (for ssid 2), the set-ACL calls of `main` are exactly three: CREATE for
(object 1234, wildcard instance, ssid 1), READ for (object 1, `iid1`, ssid 1) and
READ for (object 1, `iid2`, ssid 2).  The table that results from them, starting
empty, holds READ at the two server triples, CREATE at the test-object triple and
the mask 0 at every other triple. -/
theorem C8_acl_after_bootstrap {W : Type} (E : Externals W) (K : Constants)
    (fuel : Nat) (w : W) (anjay sec srv tst ac ats : Ptr) (iid1 iid2 : Nat)
    (hnew : (E.anjay_new CONFIG w).1 = some anjay)
    (hcreate : (create_objects E anjay (after_new E w)).1 =
      { security_obj := some sec, server_obj := some srv, test_obj := some tst,
        access_control_obj := some ac, attr_storage := some ats })
    (hall : ∀ k, k < 4 → registration_result E anjay ats [sec, srv, tst, ac] k
      (create_objects E anjay (after_new E w)).2 = 0)
    (hiid1 : server_add1 E K sec srv (registration_state E anjay ats [sec, srv, tst, ac]
      (create_objects E anjay (after_new E w)).2) = { result := 0, stored_iid := some iid1 })
    (hiid2 : server_add2 E K sec srv (registration_state E anjay ats [sec, srv, tst, ac]
      (create_objects E anjay (after_new E w)).2)
        = { result := 0, stored_iid := some iid2 }) :
    setAclCalls (main E K fuel w).2.trace
      = [Call.anjay_access_control_set_acl ac 1234 K.ANJAY_IID_INVALID 1
           K.ANJAY_ACCESS_MASK_CREATE,
         Call.anjay_access_control_set_acl ac 1 iid1 1 K.ANJAY_ACCESS_MASK_READ,
         Call.anjay_access_control_set_acl ac 1 iid2 2 K.ANJAY_ACCESS_MASK_READ]
    ∧ (replay_acl (main E K fuel w).2.trace AclTable.empty).get_acl 1 iid1 1
        = K.ANJAY_ACCESS_MASK_READ
    ∧ (replay_acl (main E K fuel w).2.trace AclTable.empty).get_acl 1 iid2 2
        = K.ANJAY_ACCESS_MASK_READ
    ∧ (replay_acl (main E K fuel w).2.trace AclTable.empty).get_acl 1234
        K.ANJAY_IID_INVALID 1 = K.ANJAY_ACCESS_MASK_CREATE
    ∧ (∀ oid iid ssid,
        (replay_acl (main E K fuel w).2.trace AclTable.empty).get_acl oid iid ssid ≠ 0 →
        (oid = 1 ∧ iid = iid1 ∧ ssid = 1) ∨ (oid = 1 ∧ iid = iid2 ∧ ssid = 2)
          ∨ (oid = 1234 ∧ iid = K.ANJAY_IID_INVALID ∧ ssid = 1)) := by
  obtain ⟨_, evs, h2, h3, _⟩ := main_bootstrapped E K fuel w anjay sec srv tst ac ats
    hnew hcreate hall
  rw [hiid1, hiid2] at h2
  simp only [Option.getD_some] at h2
  obtain ⟨hr, hs⟩ := acl_of_bootstrapped E K anjay sec srv tst ac ats
    (create_objects E anjay (after_new E w)).2 iid1 iid2 evs h3
  rw [h2, hr, hs]
  refine ⟨rfl, ?_, ?_, ?_, ?_⟩
  · simp [populate_calls, replay_acl, AclTable.get_acl, AclTable.set_acl]
  · simp [populate_calls, replay_acl, AclTable.get_acl, AclTable.set_acl]
  · simp [populate_calls, replay_acl, AclTable.get_acl, AclTable.set_acl]
  · intro oid iid ssid
    simp only [populate_calls, replay_acl, AclTable.get_acl, AclTable.set_acl,
      AclTable.empty]
    intro h
    by_cases c3 : oid = 1 ∧ iid = iid2 ∧ ssid = 2
    · exact Or.inr (Or.inl c3)
    · by_cases c2 : oid = 1 ∧ iid = iid1 ∧ ssid = 1
      · exact Or.inl c2
      · by_cases c1 : oid = 1234 ∧ iid = K.ANJAY_IID_INVALID ∧ ssid = 1
        · exact Or.inr (Or.inr c1)
        · simp [c1, c2, c3] at h

/-- C8, at the run in which everything succeeds: the security object assigns the
instance ids 3 and 4, the server object 7 and 8, and the READ entries are set for
the instances 7 and 8, which are neither the ssids 1 and 2 nor the instance ids of
the security object. -/
theorem C8_acl_after_bootstrap_witness :
    setAclCalls (main happyExt anjayConstants 2 ()).2.trace
      = [Call.anjay_access_control_set_acl 4 1234 65535 1 16,
         Call.anjay_access_control_set_acl 4 1 7 1 1,
         Call.anjay_access_control_set_acl 4 1 8 2 1]
    ∧ (replay_acl (main happyExt anjayConstants 2 ()).2.trace AclTable.empty).get_acl 1 7 1
        = 1
    ∧ (replay_acl (main happyExt anjayConstants 2 ()).2.trace AclTable.empty).get_acl 1 1 1
        = 0
    ∧ (replay_acl (main happyExt anjayConstants 2 ()).2.trace AclTable.empty).get_acl 1 3 1
        = 0 :=
  ⟨(C8_acl_after_bootstrap happyExt anjayConstants 2 () 100 1 2 3 4 5 7 8 rfl rfl
      (fun k hk => by interval_cases k <;> rfl) rfl rfl).1,
   (C8_acl_after_bootstrap happyExt anjayConstants 2 () 100 1 2 3 4 5 7 8 rfl rfl
      (fun k hk => by interval_cases k <;> rfl) rfl rfl).2.1,
   by decide, by decide⟩

/-- C10, as stated, fails in its last sentence: in the run in which both add-instance
calls on the server object fail with -1 after having stored the instance id 9, the
two ACL-read calls are made with the instance id 9 and no ACL-read call is made
with the wildcard 65535. -/
theorem C10_failed_add_wildcard_counterexample :
    (serverAddFailsAfterStoringExt.anjay_server_object_add_instance 2
        (server_instance1 anjayConstants) 65535 ()).1.result = -1
    ∧ (serverAddFailsAfterStoringExt.anjay_server_object_add_instance 2
        (server_instance2 anjayConstants) 65535 ()).1.result = -1
    ∧ setAclCalls (main serverAddFailsAfterStoringExt anjayConstants 0 ()).2.trace
        = [Call.anjay_access_control_set_acl 4 1234 65535 1 16,
           Call.anjay_access_control_set_acl 4 1 9 1 1,
           Call.anjay_access_control_set_acl 4 1 9 2 1]
    ∧ Call.anjay_access_control_set_acl 4 1 65535 1 1
        ∉ setAclCalls (main serverAddFailsAfterStoringExt anjayConstants 0 ()).2.trace
    ∧ Call.anjay_access_control_set_acl 4 1 65535 2 1
        ∉ setAclCalls (main serverAddFailsAfterStoringExt anjayConstants 0 ()).2.trace := by
  have h : setAclCalls (main serverAddFailsAfterStoringExt anjayConstants 0 ()).2.trace
      = [Call.anjay_access_control_set_acl 4 1234 65535 1 16,
         Call.anjay_access_control_set_acl 4 1 9 1 1,
         Call.anjay_access_control_set_acl 4 1 9 2 1] := rfl
  refine ⟨rfl, rfl, h, ?_, ?_⟩
  · rw [h]
    simp
  · rw [h]
    simp

/-- C10, amended: once the context, the creations and the four registrations
succeeded, `main` makes the seven population calls in the fixed order (security 1,
server 1, security 2, server 2, ACL create, ACL read 1, ACL read 2) and then enters
the event loop, whatever these seven calls answer.  The instance id given to each
ACL-read call is whatever the server add-instance call, successful or failed, left
in `server_instance_iid1` or `server_instance_iid2`: the id it stored through
`inout_iid`, or the initial wildcard `ANJAY_IID_INVALID` if it stored nothing. -/
theorem C10_population_unconditional {W : Type} (E : Externals W) (K : Constants)
    (fuel : Nat) (w : W) (anjay sec srv tst ac ats : Ptr)
    (hnew : (E.anjay_new CONFIG w).1 = some anjay)
    (hcreate : (create_objects E anjay (after_new E w)).1 =
      { security_obj := some sec, server_obj := some srv, test_obj := some tst,
        access_control_obj := some ac, attr_storage := some ats })
    (hall : ∀ k, k < 4 → registration_result E anjay ats [sec, srv, tst, ac] k
      (create_objects E anjay (after_new E w)).2 = 0) :
    main E K fuel w
      = (none, (main_loop E K anjay fuel (populate E K sec srv ac
          (registration_state E anjay ats [sec, srv, tst, ac]
            (create_objects E anjay (after_new E w)).2))).2)
    ∧ (∃ evs : List Call,
        (main E K fuel w).2.trace
          = Call.anjay_new CONFIG :: (creation_calls anjay
              ++ registration_events E anjay ats [sec, srv, tst, ac]
                  (create_objects E anjay (after_new E w)).2
              ++ [Call.anjay_security_object_add_instance sec (security_instance1 K)
                    K.ANJAY_IID_INVALID,
                  Call.anjay_server_object_add_instance srv (server_instance1 K)
                    K.ANJAY_IID_INVALID,
                  Call.anjay_security_object_add_instance sec (security_instance2 K)
                    K.ANJAY_IID_INVALID,
                  Call.anjay_server_object_add_instance srv (server_instance2 K)
                    K.ANJAY_IID_INVALID,
                  Call.anjay_access_control_set_acl ac 1234 K.ANJAY_IID_INVALID 1
                    K.ANJAY_ACCESS_MASK_CREATE,
                  Call.anjay_access_control_set_acl ac 1
                    ((server_add1 E K sec srv
                      (registration_state E anjay ats [sec, srv, tst, ac]
                        (create_objects E anjay (after_new E w)).2)).stored_iid.getD
                      K.ANJAY_IID_INVALID) 1 K.ANJAY_ACCESS_MASK_READ,
                  Call.anjay_access_control_set_acl ac 1
                    ((server_add2 E K sec srv
                      (registration_state E anjay ats [sec, srv, tst, ac]
                        (create_objects E anjay (after_new E w)).2)).stored_iid.getD
                      K.ANJAY_IID_INVALID) 2 K.ANJAY_ACCESS_MASK_READ]
              ++ evs)
        ∧ (∀ c ∈ evs, c.inLoop = true)
        ∧ (0 < fuel → ∃ rest, evs = Call.anjay_get_sockets anjay :: rest))
    ∧ (∀ iid, (server_add1 E K sec srv (registration_state E anjay ats [sec, srv, tst, ac]
          (create_objects E anjay (after_new E w)).2)).stored_iid = some iid →
        Call.anjay_access_control_set_acl ac 1 iid 1 K.ANJAY_ACCESS_MASK_READ
          ∈ (main E K fuel w).2.trace)
    ∧ ((server_add1 E K sec srv (registration_state E anjay ats [sec, srv, tst, ac]
          (create_objects E anjay (after_new E w)).2)).stored_iid = none →
        Call.anjay_access_control_set_acl ac 1 K.ANJAY_IID_INVALID 1
          K.ANJAY_ACCESS_MASK_READ ∈ (main E K fuel w).2.trace)
    ∧ (∀ iid, (server_add2 E K sec srv (registration_state E anjay ats [sec, srv, tst, ac]
          (create_objects E anjay (after_new E w)).2)).stored_iid = some iid →
        Call.anjay_access_control_set_acl ac 1 iid 2 K.ANJAY_ACCESS_MASK_READ
          ∈ (main E K fuel w).2.trace)
    ∧ ((server_add2 E K sec srv (registration_state E anjay ats [sec, srv, tst, ac]
          (create_objects E anjay (after_new E w)).2)).stored_iid = none →
        Call.anjay_access_control_set_acl ac 1 K.ANJAY_IID_INVALID 2
          K.ANJAY_ACCESS_MASK_READ ∈ (main E K fuel w).2.trace) := by
  obtain ⟨h1, evs, h2, h3, h4⟩ := main_bootstrapped E K fuel w anjay sec srv tst ac ats
    hnew hcreate hall
  refine ⟨h1, ⟨evs, h2, h3, h4⟩, ?_, ?_, ?_, ?_⟩
  · intro iid hsome
    rw [h2, hsome]
    simp [populate_calls]
  · intro hnone
    rw [h2, hnone]
    simp [populate_calls]
  · intro iid hsome
    rw [h2, hsome]
    simp [populate_calls]
  · intro hnone
    rw [h2, hnone]
    simp [populate_calls]

/-- C10 amended, at the run in which both add-instance calls on the server object
fail and store nothing: all seven calls are made, the two ACL-read calls get the
wildcard instance id 65535, and the event loop is entered; and at the run in which
they fail after having stored 9, the ACL-read call for ssid 1 gets 9. -/
theorem C10_population_unconditional_witness :
    (main serverAddFailsExt anjayConstants 1 ()).1 = none
    ∧ (main serverAddFailsExt anjayConstants 1 ()).2.trace
        = [Call.anjay_new CONFIG,
           Call.anjay_security_object_create,
           Call.anjay_server_object_create,
           Call.create_test_object,
           Call.anjay_access_control_object_new 100,
           Call.anjay_attr_storage_new 100,
           Call.anjay_attr_storage_wrap_object 5 1,
           Call.anjay_register_object 100 (some 11),
           Call.anjay_attr_storage_wrap_object 5 2,
           Call.anjay_register_object 100 (some 12),
           Call.anjay_attr_storage_wrap_object 5 3,
           Call.anjay_register_object 100 (some 13),
           Call.anjay_attr_storage_wrap_object 5 4,
           Call.anjay_register_object 100 (some 14),
           Call.anjay_security_object_add_instance 1 (security_instance1 anjayConstants)
             65535,
           Call.anjay_server_object_add_instance 2 (server_instance1 anjayConstants) 65535,
           Call.anjay_security_object_add_instance 1 (security_instance2 anjayConstants)
             65535,
           Call.anjay_server_object_add_instance 2 (server_instance2 anjayConstants) 65535,
           Call.anjay_access_control_set_acl 4 1234 65535 1 16,
           Call.anjay_access_control_set_acl 4 1 65535 1 1,
           Call.anjay_access_control_set_acl 4 1 65535 2 1,
           Call.anjay_get_sockets 100,
           Call.avs_net_socket_get_system 11,
           Call.avs_net_socket_get_system 12,
           Call.avs_net_socket_get_system 13,
           Call.anjay_sched_calculate_wait_time_ms 100 1000,
           Call.poll [{ fd := 11, events := 1, revents := 0 },
                      { fd := 12, events := 1, revents := 0 },
                      { fd := 13, events := 1, revents := 0 }] 3 250,
           Call.anjay_serve 100 11,
           Call.anjay_serve 100 12,
           Call.anjay_serve 100 13,
           Call.anjay_sched_run 100]
    ∧ Call.anjay_access_control_set_acl 4 1 65535 1 1
        ∈ (main serverAddFailsExt anjayConstants 1 ()).2.trace
    ∧ Call.anjay_access_control_set_acl 4 1 9 1 1
        ∈ (main serverAddFailsAfterStoringExt anjayConstants 1 ()).2.trace :=
  ⟨congrArg Prod.fst (C10_population_unconditional serverAddFailsExt anjayConstants 1 ()
      100 1 2 3 4 5 rfl rfl (fun k hk => by interval_cases k <;> rfl)).1,
   rfl,
   (C10_population_unconditional serverAddFailsExt anjayConstants 1 ()
      100 1 2 3 4 5 rfl rfl (fun k hk => by interval_cases k <;> rfl)).2.2.2.1 rfl,
   (C10_population_unconditional serverAddFailsAfterStoringExt anjayConstants 1 ()
      100 1 2 3 4 5 rfl rfl (fun k hk => by interval_cases k <;> rfl)).2.2.1 9 rfl⟩


end AT4
